import Mathlib

/-!
Shallow embedding of the HTU21D temperature/humidity sensor driver
(`src/htu21d.c`) and proofs about its protocol and validation logic.

Machine integers are modelled as `Nat` with explicit truncation (`% 256`,
`% 65536`, bit masks) where the C types force it.  Bus transactions are
modelled by passing the outcome of each transaction (status code, received
bytes) as explicit arguments in program order, and each driver operation
additionally returns the list of bus events it issues, in order.
-/

namespace Htu21

/-- Bus-level status codes, from the `status_code` enum in `esp32_i2c.h`. -/
inductive status_code where
  | STATUS_OK
  | STATUS_ERR_OVERFLOW
  | STATUS_ERR_TIMEOUT
deriving DecidableEq, Repr

/-- Driver-level status codes (`enum htu21_status` of the driver header). -/
inductive htu21_status where
  | ok
  | i2c_transfer_error
  | no_i2c_acknowledge
  | crc_error
deriving DecidableEq, Repr

/-- I2C master mode (`enum htu21_i2c_master_mode`). -/
inductive htu21_i2c_master_mode where
  | htu21_i2c_hold
  | htu21_i2c_no_hold
deriving DecidableEq, Repr

/-- One bus transaction or delay issued by the driver, in program order. -/
inductive Ev where
  | write (data : List Nat)
  | writeNoStop (data : List Nat)
  | read (len : Nat)
  | delay_ms (t : Nat)
deriving DecidableEq, Repr

-- Device commands (macros in htu21d.c)
def HTU21_RESET_COMMAND : Nat := 0xFE
def HTU21_READ_TEMPERATURE_W_HOLD_COMMAND : Nat := 0xE3
def HTU21_READ_TEMPERATURE_WO_HOLD_COMMAND : Nat := 0xF3
def HTU21_READ_HUMIDITY_W_HOLD_COMMAND : Nat := 0xE5
def HTU21_READ_HUMIDITY_WO_HOLD_COMMAND : Nat := 0xF5
def HTU21_READ_SERIAL_FIRST_8BYTES_COMMAND : Nat := 0xFA0F
def HTU21_READ_SERIAL_LAST_6BYTES_COMMAND : Nat := 0xFCC9
def HTU21_WRITE_USER_REG_COMMAND : Nat := 0xE6
def HTU21_READ_USER_REG_COMMAND : Nat := 0xE7

-- Conversion timings (microseconds)
def HTU21_TEMPERATURE_CONVERSION_TIME_T_14b_RH_12b : Nat := 50000
def HTU21_TEMPERATURE_CONVERSION_TIME_T_13b_RH_10b : Nat := 25000
def HTU21_TEMPERATURE_CONVERSION_TIME_T_12b_RH_8b : Nat := 13000
def HTU21_TEMPERATURE_CONVERSION_TIME_T_11b_RH_11b : Nat := 7000
def HTU21_HUMIDITY_CONVERSION_TIME_T_14b_RH_12b : Nat := 16000
def HTU21_HUMIDITY_CONVERSION_TIME_T_13b_RH_10b : Nat := 5000
def HTU21_HUMIDITY_CONVERSION_TIME_T_12b_RH_8b : Nat := 3000
def HTU21_HUMIDITY_CONVERSION_TIME_T_11b_RH_11b : Nat := 8000

-- User register masks.
def HTU21_USER_REG_RESOLUTION_MASK : Nat := 0x81
def HTU21_USER_REG_END_OF_BATTERY_MASK : Nat := 0x40
def HTU21_USER_REG_ENABLE_ONCHIP_HEATER_MASK : Nat := 0x4
def HTU21_USER_REG_DISABLE_OTP_RELOAD_MASK : Nat := 0x2

/-- `HTU21_USER_REG_RESERVED_MASK` is `~(0x81 | 0x40 | 0x4 | 0x2) = ~0xC7`,
a C `int`; as the 32-bit twos-complement bit pattern that the `&`
operations see, it is `0xFFFFFF38`. -/
def HTU21_USER_REG_RESERVED_MASK : Nat := 0xFFFFFF38

/-- `~HTU21_USER_REG_RESERVED_MASK` restricted to 32 bits, i.e. `0xC7`. -/
def HTU21_USER_REG_RESERVED_MASK_COMPL : Nat := 0xC7

-- Resolution register values
def HTU21_USER_REG_RESOLUTION_T_14b_RH_12b : Nat := 0x00
def HTU21_USER_REG_RESOLUTION_T_13b_RH_10b : Nat := 0x80
def HTU21_USER_REG_RESOLUTION_T_12b_RH_8b : Nat := 0x01
def HTU21_USER_REG_RESOLUTION_T_11b_RH_11b : Nat := 0x81

/-- Modelled from the spec: the `enum htu21_resolution` values live in
`htu21d.h`, which is not among the provided sources; a C enum without
explicit initializers numbers its variants consecutively from 0 in
declaration order (the four fixed levels of spec section 6), and a C enum
variable can carry any other `int` value as well, so the resolution
argument is modelled as a plain `Nat`. -/
def htu21_resolution_t_14b_rh_12b : Nat := 0

/-- Modelled from the spec: second declared resolution variant. -/
def htu21_resolution_t_13b_rh_10b : Nat := 1

/-- Modelled from the spec: third declared resolution variant. -/
def htu21_resolution_t_12b_rh_8b : Nat := 2

/-- Modelled from the spec: fourth declared resolution variant. -/
def htu21_resolution_t_11b_rh_11b : Nat := 3

/-- Mapping of a bus write status to a driver status, as done identically in
`htu21_write_command` and `htu21_write_command_no_stop` and after each read
transaction: `STATUS_ERR_OVERFLOW` becomes `no_i2c_acknowledge`, any other
non-OK status becomes `i2c_transfer_error`. -/
def map_i2c_status (s : status_code) : htu21_status :=
  if s = status_code.STATUS_ERR_OVERFLOW then htu21_status.no_i2c_acknowledge
  else if s ≠ status_code.STATUS_OK then htu21_status.i2c_transfer_error
  else htu21_status.ok

/-- One iteration of the `while( msb != 0x80 )` loop body of
`htu21_crc_check`: if the current `msb` bit of `result` is set, XOR the
polynomial into the masked window, leaving bits outside `mask` untouched.
`result & ~mask` is computed with the 32-bit complement of `mask`. -/
def htu21_crc_step (result polynom msb mask : Nat) : Nat :=
  if result &&& msb ≠ 0 then
    ((result ^^^ polynom) &&& mask) ||| (result &&& (0xFFFFFFFF ^^^ mask))
  else
    result

/-- The loop of `htu21_crc_check`, with `polynom`, `msb` and `mask` shifted
right by one after each iteration; the C loop runs while `msb != 0x80`,
i.e. exactly 16 times from the initial values. -/
def htu21_crc_loop : Nat → Nat → Nat → Nat → Nat → Nat
  | 0, result, _, _, _ => result
  | n + 1, result, polynom, msb, mask =>
      htu21_crc_loop n (htu21_crc_step result polynom msb mask)
        (polynom >>> 1) (msb >>> 1) (mask >>> 1)

/-- The value of `result` at the end of the loop of `htu21_crc_check`, starting
from `result = (uint32_t)value << 8` (the `uint16_t` argument padded with a
zero byte), `polynom = 0x988000`, `msb = 0x800000`, `mask = 0xFF8000`. -/
def htu21_crc_result (value : Nat) : Nat :=
  htu21_crc_loop 16 ((value % 65536) <<< 8) 0x988000 0x800000 0xFF8000

/-- `htu21_crc_check` from htu21d.c: runs the division loop and compares the
final remainder with the supplied CRC byte. -/
def htu21_crc_check (value crc : Nat) : htu21_status :=
  if htu21_crc_result value = crc then htu21_status.ok
  else htu21_status.crc_error

/-- One step of the textbook MSB-first CRC-8 shift register for polynomial
`x^8 + x^5 + x^4 + 1` (0x131): shift in the next message bit, and if the
bit shifted out of the 8-bit register was set, XOR the low 8 bits of the
polynomial (0x31; the shifted-out bit cancels against the `x^8` term of the polynomial). This definition follows the words of the spec, not the source, and
serves as the reference that the loop of the source is compared against. -/
def crc8_spec_step (r bit : Nat) : Nat :=
  if r &&& 0x80 ≠ 0 then (((r <<< 1) &&& 0xFF) ||| bit) ^^^ 0x31
  else ((r <<< 1) &&& 0xFF) ||| bit

/-- MSB-first run of the CRC-8 shift register: with `n` message bits left
to process, consume bit `n - 1` of `m` (the message bits, MSB first) and
recurse. -/
def crc8_spec_run : Nat → Nat → Nat → Nat
  | r, 0, _ => r
  | r, n + 1, m => crc8_spec_run (crc8_spec_step r ((m >>> n) &&& 1)) n m

/-- Reference CRC-8 of a 16-bit value per the spec: MSB-first, no
reflection, initial remainder 0, over the value padded with a trailing zero
byte (24 message bits). -/
def crc8_spec (value : Nat) : Nat :=
  crc8_spec_run 0 24 ((value % 65536) <<< 8)

/-! Equivalence of the 24-bit-register CRC loop of the source with the reference
8-bit shift register.  The key observation: after `16 - n` iterations the
working register holds the shift-register value in bits `n+8 .. n` and
the untouched remaining message bits below bit `n`. -/

/-- Bitwise AND acts independently on the part above bit `n` and the low
`n` bits. -/
lemma and_split {n b d : Nat} (a c : Nat) (hb : b < 2 ^ n) (hd : d < 2 ^ n) :
    (2 ^ n * a + b) &&& (2 ^ n * c + d) = 2 ^ n * (a &&& c) + (b &&& d) := by
  apply Nat.eq_of_testBit_eq
  intro j
  have hbd : b &&& d < 2 ^ n := Nat.and_lt_two_pow _ hd
  simp only [Nat.testBit_and, Nat.testBit_mul_pow_two_add _ hb,
    Nat.testBit_mul_pow_two_add _ hd, Nat.testBit_mul_pow_two_add _ hbd]
  by_cases h : j < n <;> simp [h, Nat.testBit_and]

/-- Bitwise OR acts independently on the part above bit `n` and the low
`n` bits. -/
lemma or_split {n b d : Nat} (a c : Nat) (hb : b < 2 ^ n) (hd : d < 2 ^ n) :
    (2 ^ n * a + b) ||| (2 ^ n * c + d) = 2 ^ n * (a ||| c) + (b ||| d) := by
  apply Nat.eq_of_testBit_eq
  intro j
  have hbd : b ||| d < 2 ^ n := Nat.or_lt_two_pow hb hd
  simp only [Nat.testBit_or, Nat.testBit_mul_pow_two_add _ hb,
    Nat.testBit_mul_pow_two_add _ hd, Nat.testBit_mul_pow_two_add _ hbd]
  by_cases h : j < n <;> simp [h, Nat.testBit_or]

/-- Bitwise XOR acts independently on the part above bit `n` and the low
`n` bits. -/
lemma xor_split {n b d : Nat} (a c : Nat) (hb : b < 2 ^ n) (hd : d < 2 ^ n) :
    (2 ^ n * a + b) ^^^ (2 ^ n * c + d) = 2 ^ n * (a ^^^ c) + (b ^^^ d) := by
  apply Nat.eq_of_testBit_eq
  intro j
  have hbd : b ^^^ d < 2 ^ n := Nat.xor_lt_two_pow hb hd
  simp only [Nat.testBit_xor, Nat.testBit_mul_pow_two_add _ hb,
    Nat.testBit_mul_pow_two_add _ hd, Nat.testBit_mul_pow_two_add _ hbd]
  by_cases h : j < n <;> simp [h, Nat.testBit_xor]

/-- For a byte, bit 7 is set exactly when the byte is at least 128. -/
lemma testBit_seven_iff {W : Nat} (hW : W < 256) :
    W.testBit 7 = true ↔ 128 ≤ W := by
  rw [Nat.testBit_to_div_mod, decide_eq_true_eq,
    show (2 : Nat) ^ 7 = 128 by norm_num]
  omega

/-- The loop guard `result & msb` of the source is nonzero exactly when bit
8 of the active window is set. -/
lemma crc_guard_iff {n H l : Nat} (hl : l < 2 ^ n) :
    ((2 ^ n * H + l) &&& 2 ^ (8 + n) ≠ 0) ↔ H.testBit 8 = true := by
  have h0 : (0 : Nat) < 2 ^ n := Nat.two_pow_pos n
  have e1 : (2 : Nat) ^ (8 + n) = 2 ^ n * 2 ^ 8 + 0 := by
    rw [Nat.pow_add]; ring
  rw [e1, and_split _ _ hl h0, Nat.and_zero, Nat.add_zero, Nat.and_two_pow]
  cases h : H.testBit 8 <;>
    simp [h, Nat.mul_ne_zero_iff, (Nat.two_pow_pos n).ne']

/-- The shift-register guard `r & 0x80` is nonzero exactly when bit 7 of
the register is set. -/
lemma spec_guard_iff {W : Nat} : (W &&& 0x80 ≠ 0) ↔ W.testBit 7 = true := by
  rw [show (0x80 : Nat) = 2 ^ 7 by norm_num, Nat.and_two_pow]
  cases h : W.testBit 7 <;> simp [h]

/-- One iteration of the CRC loop of the source agrees with one step of the
reference shift register: the working register of the loop holds the shift
register `W` in bits `n+8 .. n` and the unprocessed message bits `m` below,
and one iteration consumes message bit `n`. -/
lemma crc_step_agrees {n W m : Nat} (hn : n ≤ 15) (hW : W < 256)
    (hm : m < 2 ^ (n + 1)) :
    htu21_crc_step (2 ^ (n + 1) * W + m) (0x131 <<< n) (2 ^ (8 + n)) (0x1FF <<< n)
      = 2 ^ n * crc8_spec_step W ((m >>> n) &&& 1) + m % 2 ^ n := by
  have h0 : (0 : Nat) < 2 ^ n := Nat.two_pow_pos n
  have e8 : (2 : Nat) ^ 8 = 256 := by norm_num
  have e9 : (2 : Nat) ^ 9 = 512 := by norm_num
  have hb2 : m >>> n < 2 := by
    rw [Nat.shiftRight_eq_div_pow]
    apply Nat.div_lt_of_lt_mul
    rw [← Nat.pow_succ]
    exact hm
  have hbb : (m >>> n) &&& 1 = m >>> n := by
    rw [Nat.and_one_is_mod]
    exact Nat.mod_eq_of_lt hb2
  rw [hbb]
  set b := m >>> n with hbdef
  set l := m % 2 ^ n with hldef
  have hl : l < 2 ^ n := Nat.mod_lt m h0
  have hb1 : b < 2 ^ 1 := by rw [pow_one]; exact hb2
  have hX : 2 ^ (n + 1) * W + m = 2 ^ n * (2 * W + b) + l := by
    have hdm : 2 ^ n * b + l = m := by
      rw [hbdef, hldef, Nat.shiftRight_eq_div_pow]
      exact Nat.div_add_mod m (2 ^ n)
    calc 2 ^ (n + 1) * W + m = 2 ^ n * 2 * W + (2 ^ n * b + l) := by
          rw [hdm, Nat.pow_succ]
      _ = 2 ^ n * (2 * W + b) + l := by ring
  rw [hX]
  set H := 2 * W + b with hHdef
  have hH9 : H < 2 ^ 9 := by rw [e9]; omega
  have hHbit : H.testBit 8 = W.testBit 7 := by
    have h := Nat.testBit_mul_pow_two_add W hb1 8
    rw [show 2 ^ 1 * W + b = H by rw [hHdef]; ring] at h
    simpa using h
  have hguard : ((2 ^ n * H + l) &&& 2 ^ (8 + n) ≠ 0) ↔ W.testBit 7 = true :=
    (crc_guard_iff hl).trans (by rw [hHbit])
  have hshl : W <<< 1 = 2 * W := by rw [Nat.shiftLeft_eq]; ring
  unfold htu21_crc_step crc8_spec_step
  by_cases h7 : W.testBit 7 = true
  · -- reduction step: the top bit of the window is set and the polynomial
    -- is XORed in; on the spec side the register overflows and is reduced.
    have hW128 : 128 ≤ W := (testBit_seven_iff hW).mp h7
    rw [if_pos (hguard.mpr h7), if_pos (spec_guard_iff.mpr h7)]
    have hP : (0x131 : Nat) <<< n = 2 ^ n * 0x131 + 0 := by
      rw [Nat.shiftLeft_eq]; ring
    have hK : (0x1FF : Nat) <<< n = 2 ^ n * 0x1FF + 0 := by
      rw [Nat.shiftLeft_eq]; ring
    have hxor1 : (2 ^ n * H + l) ^^^ (0x131 <<< n) = 2 ^ n * (H ^^^ 0x131) + l := by
      rw [hP, xor_split _ _ hl h0, Nat.xor_zero]
    have hC9 : H ^^^ 0x131 < 2 ^ 9 := Nat.xor_lt_two_pow hH9 (by norm_num)
    have hand1 : (2 ^ n * (H ^^^ 0x131) + l) &&& (0x1FF <<< n)
        = 2 ^ n * (H ^^^ 0x131) + 0 := by
      rw [hK, and_split _ _ hl h0, Nat.and_zero]
      congr 2
      rw [show (0x1FF : Nat) = 2 ^ 9 - 1 by norm_num,
        Nat.and_pow_two_sub_one_of_lt_two_pow hC9]
    have hmaskrest : (0xFFFFFFFF : Nat) ^^^ (0x1FF <<< n)
        = 2 ^ n * (2 ^ 9 * (2 ^ (23 - n) - 1)) + (2 ^ n - 1) := by
      have h1 : (2 : Nat) ^ n * 2 ^ (32 - n) = 2 ^ 32 := by
        rw [← Nat.pow_add]; congr 1; omega
      have h2 : (1 : Nat) ≤ 2 ^ n := Nat.one_le_two_pow
      have h3 : (2 : Nat) ^ n ≤ 2 ^ 15 := Nat.pow_le_pow_right (by norm_num) hn
      have h4 : (2 : Nat) ^ 15 = 32768 := by norm_num
      have h5 : (2 : Nat) ^ 32 = 4294967296 := by norm_num
      have e32 : (0xFFFFFFFF : Nat) = 2 ^ n * (2 ^ (32 - n) - 1) + (2 ^ n - 1) := by
        rw [Nat.mul_sub_one, h1]
        omega
      have h6 : (2 : Nat) ^ 9 * 2 ^ (23 - n) = 2 ^ (32 - n) := by
        rw [← Nat.pow_add]; congr 1; omega
      have h7a : (2 : Nat) ^ 9 ≤ 2 ^ (32 - n) := by
        rw [← h6]; exact Nat.le_mul_of_pos_right _ (Nat.two_pow_pos _)
      have eA : (2 : Nat) ^ (32 - n) - 1
          = 2 ^ 9 * (2 ^ (23 - n) - 1) + (2 ^ 9 - 1) := by
        rw [Nat.mul_sub_one, h6]
        omega
      rw [e32, hK, xor_split _ _ (by omega) h0, Nat.xor_zero, eA,
        show (0x1FF : Nat) = 2 ^ 9 * 0 + (2 ^ 9 - 1) by norm_num,
        xor_split _ _ (by omega) (by omega), Nat.xor_self, Nat.xor_zero,
        Nat.add_zero]
    have hHmask : H &&& (2 ^ 9 * (2 ^ (23 - n) - 1)) = 0 := by
      have h := and_split (n := 9) 0 (2 ^ (23 - n) - 1) hH9
        (show (0 : Nat) < 2 ^ 9 by norm_num)
      simpa using h
    have hand2 : (2 ^ n * H + l) &&& ((0xFFFFFFFF : Nat) ^^^ (0x1FF <<< n))
        = 2 ^ n * 0 + l := by
      rw [hmaskrest, and_split _ _ hl (show (2 : Nat) ^ n - 1 < 2 ^ n by omega),
        hHmask, Nat.and_pow_two_sub_one_of_lt_two_pow hl]
    have hrhs : (((W <<< 1) &&& 0xFF) ||| b) ^^^ 0x31 = H ^^^ 0x131 := by
      rw [hshl, show (0xFF : Nat) = 2 ^ 8 - 1 by norm_num,
        Nat.and_pow_two_sub_one_eq_mod,
        show 2 * W % 2 ^ 8 = 2 * W - 256 by rw [e8]; omega]
      have hor : (2 * W - 256) ||| b = 2 * W - 256 + b := by
        have h := Nat.mul_add_lt_is_or hb1 (W - 128)
        rw [show 2 ^ 1 * (W - 128) = 2 * W - 256 by rw [pow_one]; omega] at h
        exact h.symm
      rw [hor,
        show H = 2 ^ 8 * 1 + (2 * W - 256 + b) by rw [e8]; omega,
        show (0x131 : Nat) = 2 ^ 8 * 1 + 0x31 by norm_num,
        xor_split _ _ (show 2 * W - 256 + b < 2 ^ 8 by rw [e8]; omega)
          (show (0x31 : Nat) < 2 ^ 8 by norm_num),
        Nat.xor_self]
      simp
    rw [hxor1, hand1, hand2,
      or_split _ _ (show (0 : Nat) < 2 ^ n from h0) hl, Nat.or_zero,
      Nat.zero_or, hrhs]
  · -- pass-through step: top bit clear, the register only shifts.
    have hW128 : W < 128 := by
      rcases Nat.lt_or_ge W 128 with h | h
      · exact h
      · exact absurd ((testBit_seven_iff hW).mpr h) h7
    rw [if_neg (fun hc => h7 (hguard.mp hc)),
      if_neg (fun hc => h7 (spec_guard_iff.mp hc))]
    congr 2
    rw [hshl, show (0xFF : Nat) = 2 ^ 8 - 1 by norm_num,
      Nat.and_pow_two_sub_one_of_lt_two_pow (show 2 * W < 2 ^ 8 by rw [e8]; omega)]
    have h := Nat.mul_add_lt_is_or hb1 W
    rw [show 2 ^ 1 * W = 2 * W by ring] at h
    rw [← h]

lemma htu21_crc_loop_succ (n result polynom msb mask : Nat) :
    htu21_crc_loop (n + 1) result polynom msb mask
      = htu21_crc_loop n (htu21_crc_step result polynom msb mask)
          (polynom >>> 1) (msb >>> 1) (mask >>> 1) := rfl

lemma crc8_spec_run_succ (r n m : Nat) :
    crc8_spec_run r (n + 1) m
      = crc8_spec_run (crc8_spec_step r ((m >>> n) &&& 1)) n m := rfl

/-- The shift register stays below 256. -/
lemma crc8_spec_step_lt (r bit : Nat) (hb : bit < 2) :
    crc8_spec_step r bit < 256 := by
  have h1 : (r <<< 1) &&& 0xFF < 2 ^ 8 := by
    rw [show (0xFF : Nat) = 2 ^ 8 - 1 by norm_num, Nat.and_pow_two_sub_one_eq_mod]
    exact Nat.mod_lt _ (by norm_num)
  have h2 : bit < 2 ^ 8 := by omega
  have h3 : ((r <<< 1) &&& 0xFF) ||| bit < 2 ^ 8 := Nat.or_lt_two_pow h1 h2
  have h4 : (((r <<< 1) &&& 0xFF) ||| bit) ^^^ 0x31 < 2 ^ 8 :=
    Nat.xor_lt_two_pow h3 (by norm_num)
  unfold crc8_spec_step
  split <;> omega

/-- The run of the shift register only looks at the low `n` message bits. -/
lemma crc8_spec_run_mod (n : Nat) :
    ∀ r m, crc8_spec_run r n (m % 2 ^ n) = crc8_spec_run r n m := by
  induction n with
  | zero => intro r m; rfl
  | succ n ih =>
    intro r m
    rw [crc8_spec_run_succ, crc8_spec_run_succ]
    have hbit : ((m % 2 ^ (n + 1)) >>> n) &&& 1 = (m >>> n) &&& 1 := by
      rw [Nat.and_one_is_mod, Nat.and_one_is_mod, Nat.shiftRight_eq_div_pow,
        Nat.shiftRight_eq_div_pow, Nat.pow_succ, Nat.mod_mul_right_div_self]
      omega
    rw [hbit]
    have h1 := ih (crc8_spec_step r ((m >>> n) &&& 1)) (m % 2 ^ (n + 1))
    have h2 := ih (crc8_spec_step r ((m >>> n) &&& 1)) m
    rw [Nat.mod_mod_of_dvd _ (pow_dvd_pow 2 (Nat.le_succ n))] at h1
    rw [← h2, ← h1]

/-- The CRC loop of the source, started on a window `W` with `n` message bits
left computes exactly the reference shift register run. -/
lemma crc_loop_agrees : ∀ n, n ≤ 16 → ∀ W m polynom msb mask, W < 256 → m < 2 ^ n →
    (n ≠ 0 → polynom = 0x131 <<< (n - 1) ∧ msb = 2 ^ (8 + (n - 1)) ∧
      mask = 0x1FF <<< (n - 1)) →
    htu21_crc_loop n (2 ^ n * W + m) polynom msb mask = crc8_spec_run W n m := by
  intro n
  induction n with
  | zero =>
    intro _ W m polynom msb mask hW hm _
    have hm0 : m = 0 := by
      have : m < 1 := by simpa using hm
      omega
    simp [htu21_crc_loop, crc8_spec_run, hm0]
  | succ n ih =>
    intro hn16 W m polynom msb mask hW hm hpqk
    obtain ⟨hp, hq, hk⟩ := hpqk (Nat.succ_ne_zero n)
    rw [Nat.add_sub_cancel] at hp hq hk
    subst hp; subst hq; subst hk
    rw [htu21_crc_loop_succ, crc8_spec_run_succ]
    have hn : n ≤ 15 := by omega
    rw [crc_step_agrees hn hW hm]
    have hble : (m >>> n) &&& 1 < 2 := by
      have := Nat.and_le_right (n := m >>> n) (m := 1)
      omega
    have hW' : crc8_spec_step W ((m >>> n) &&& 1) < 256 :=
      crc8_spec_step_lt _ _ hble
    have hm' : m % 2 ^ n < 2 ^ n := Nat.mod_lt m (Nat.two_pow_pos n)
    rw [ih (by omega) _ _ _ _ _ hW' hm' ?_, crc8_spec_run_mod]
    intro hn0
    obtain ⟨n', rfl⟩ : ∃ n', n = n' + 1 := ⟨n - 1, by omega⟩
    rw [Nat.add_sub_cancel]
    refine ⟨?_, ?_, ?_⟩
    · rw [Nat.shiftLeft_add, Nat.shiftLeft_shiftRight]
    · rw [show 8 + (n' + 1) = (8 + n') + 1 by omega, Nat.pow_succ,
        Nat.shiftRight_succ, Nat.shiftRight_zero, Nat.mul_div_cancel _ (by norm_num)]
    · rw [Nat.shiftLeft_add, Nat.shiftLeft_shiftRight]

/-- During the first 8 steps the shift register just loads the top message
byte: no reduction fires while the register is still below 128. -/
lemma spec_load_step (k m : Nat) (h : m >>> (k + 1) < 2 ^ 7) :
    crc8_spec_step (m >>> (k + 1)) ((m >>> k) &&& 1) = m >>> k := by
  unfold crc8_spec_step
  rw [if_neg]
  · rw [Nat.shiftLeft_eq, pow_one, show (0xFF : Nat) = 2 ^ 8 - 1 by norm_num,
      Nat.and_pow_two_sub_one_of_lt_two_pow
        (show m >>> (k + 1) * 2 < 2 ^ 8 by
          have e7 : (2 : Nat) ^ 7 = 128 := by norm_num
          have e8 : (2 : Nat) ^ 8 = 256 := by norm_num
          omega)]
    have hb1 : (m >>> k) &&& 1 < 2 ^ 1 := by
      have := Nat.and_le_right (n := m >>> k) (m := 1)
      have e1 : (2 : Nat) ^ 1 = 2 := by norm_num
      omega
    have h := Nat.mul_add_lt_is_or hb1 (m >>> (k + 1))
    rw [show 2 ^ 1 * (m >>> (k + 1)) = m >>> (k + 1) * 2 by ring] at h
    rw [← h, Nat.and_one_is_mod, Nat.shiftRight_succ]
    -- goal: (m >>> k) / 2 * 2 + (m >>> k) % 2 = m >>> k
    omega
  · intro hc
    rw [show (0x80 : Nat) = 2 ^ 7 by norm_num, Nat.and_two_pow] at hc
    have := Nat.testBit_lt_two_pow h
    rw [this] at hc
    simp at hc

/-- Running the register from 0 over `16 + j` bits of a 24-bit message is
the same as starting from the loaded top byte with 16 bits left,
provided the top `j` consumed bits only load (message below `2 ^ 24`). -/
lemma spec_run_load : ∀ j m, j ≤ 8 → m < 2 ^ 24 →
    crc8_spec_run (m >>> (16 + j)) (16 + j) m = crc8_spec_run (m >>> 16) 16 m := by
  intro j
  induction j with
  | zero => intro m _ _; rfl
  | succ j ih =>
    intro m hj hm
    rw [show 16 + (j + 1) = (16 + j) + 1 by omega, crc8_spec_run_succ]
    have hlt : m >>> (16 + j + 1) < 2 ^ 7 := by
      rw [Nat.shiftRight_eq_div_pow]
      apply Nat.div_lt_of_lt_mul
      calc m < 2 ^ 24 := hm
        _ ≤ 2 ^ (16 + j + 1) * 2 ^ 7 := by
          rw [← Nat.pow_add]
          exact Nat.pow_le_pow_right (by norm_num) (by omega)
    rw [spec_load_step _ _ hlt]
    exact ih m (by omega) hm

/-- The CRC computed by the division loop of the source coincides with the
reference MSB-first CRC-8 of the spec, for every input. -/
lemma htu21_crc_result_eq_crc8_spec (v : Nat) :
    htu21_crc_result v = crc8_spec v := by
  unfold htu21_crc_result crc8_spec
  set M := (v % 65536) <<< 8 with hM
  have hv : v % 65536 < 65536 := Nat.mod_lt v (by norm_num)
  have hM24 : M < 2 ^ 24 := by
    rw [hM, Nat.shiftLeft_eq]
    calc (v % 65536) * 2 ^ 8 < 65536 * 2 ^ 8 :=
          (Nat.mul_lt_mul_right (by norm_num : (0 : Nat) < 2 ^ 8)).mpr hv
      _ = 2 ^ 24 := by norm_num
  have hW : M >>> 16 < 256 := by
    rw [Nat.shiftRight_eq_div_pow]
    apply Nat.div_lt_of_lt_mul
    calc M < 2 ^ 24 := hM24
      _ = 2 ^ 16 * 256 := by norm_num
  have hMsplit : 2 ^ 16 * (M >>> 16) + M % 2 ^ 16 = M := by
    rw [Nat.shiftRight_eq_div_pow]
    exact Nat.div_add_mod M (2 ^ 16)
  rw [show (0x988000 : Nat) = 0x131 <<< 15 by norm_num [Nat.shiftLeft_eq],
    show (0x800000 : Nat) = 2 ^ (8 + 15) by norm_num,
    show (0xFF8000 : Nat) = 0x1FF <<< 15 by norm_num [Nat.shiftLeft_eq]]
  have hloop := crc_loop_agrees 16 (by norm_num) (M >>> 16) (M % 2 ^ 16)
    (0x131 <<< 15) (2 ^ (8 + 15)) (0x1FF <<< 15) hW
    (Nat.mod_lt M (Nat.two_pow_pos 16)) (fun _ => ⟨rfl, rfl, rfl⟩)
  rw [hMsplit] at hloop
  rw [hloop, crc8_spec_run_mod]
  have h := spec_run_load 8 M (by norm_num) hM24
  rw [show (16 + 8 : Nat) = 24 by norm_num,
    show M >>> 24 = 0 from by
      rw [Nat.shiftRight_eq_div_pow]; exact Nat.div_eq_of_lt hM24] at h
  exact h.symm

/-! Driver operations.  The outcome of each bus transaction (status code and,
for reads, the received bytes) is passed explicitly in program order, and
every operation also returns the list of bus events it issued. -/

/-- Outcome of the two bus transactions of `htu21_read_user_register`:
the status of the command write, then the status and byte of the one-byte
read. -/
structure RegIn where
  cmd_status : status_code
  read_status : status_code
  read_byte : Nat
deriving DecidableEq, Repr

/-- `htu21_read_user_register`: sends the read-register command, then
performs a one-byte read.  Returns the driver status, the register byte
(present exactly when the call succeeds — the out parameter is only
written on success), and the issued bus events. -/
def htu21_read_user_register (bus : RegIn) : htu21_status × Option Nat × List Ev :=
  let cstat := map_i2c_status bus.cmd_status
  if cstat ≠ htu21_status.ok then
    (cstat, none, [Ev.write [HTU21_READ_USER_REG_COMMAND]])
  else if bus.read_status = status_code.STATUS_ERR_OVERFLOW then
    (htu21_status.no_i2c_acknowledge, none,
      [Ev.write [HTU21_READ_USER_REG_COMMAND], Ev.read 1])
  else if bus.read_status ≠ status_code.STATUS_OK then
    (htu21_status.i2c_transfer_error, none,
      [Ev.write [HTU21_READ_USER_REG_COMMAND], Ev.read 1])
  else
    (htu21_status.ok, some (bus.read_byte % 256),
      [Ev.write [HTU21_READ_USER_REG_COMMAND], Ev.read 1])

/-- `htu21_write_user_register value`: reads the current register, merges
the non-reserved bits of `value` over the current reserved bits (`reg &=
HTU21_USER_REG_RESERVED_MASK; reg |= value & ~HTU21_USER_REG_RESERVED_MASK`)
and issues the two-byte write-register command with the merged byte.
Returns the driver status, the merged byte actually sent on the bus
(present exactly when the write transaction was issued), and the bus
events.  `read_bus` is the outcome of the inner register read,
`write_status` of the final two-byte write. -/
def htu21_write_user_register (value : Nat) (read_bus : RegIn)
    (write_status : status_code) : htu21_status × Option Nat × List Ev :=
  let r := htu21_read_user_register read_bus
  if r.1 ≠ htu21_status.ok then (r.1, none, r.2.2)
  else
    let reg0 := r.2.1.getD 0
    -- Clear bits of reg that are not reserved
    let reg1 := reg0 &&& HTU21_USER_REG_RESERVED_MASK
    -- Set bits from value that are not reserved
    let reg := reg1 ||| (value &&& HTU21_USER_REG_RESERVED_MASK_COMPL)
    (map_i2c_status write_status, some reg,
      r.2.2 ++ [Ev.write [HTU21_WRITE_USER_REG_COMMAND, reg]])

/-- Cached conversion-timing state (the two driver globals). -/
structure TimingState where
  htu21_temperature_conversion_time : Nat
  htu21_humidity_conversion_time : Nat
deriving DecidableEq, Repr

/-- Default timing state, the initial values of the two globals. -/
def defaultTimingState : TimingState :=
  ⟨HTU21_TEMPERATURE_CONVERSION_TIME_T_14b_RH_12b,
    HTU21_HUMIDITY_CONVERSION_TIME_T_14b_RH_12b⟩

/-- The register resolution bit pattern the `if`/`else if` chain of
`htu21_set_resolution` selects for `res` (the local `tmp` is initialized
to 0, so any unmatched value keeps the 14b/12b pattern 0x00). -/
def htu21_set_resolution_tmp (res : Nat) : Nat :=
  if res = htu21_resolution_t_14b_rh_12b then HTU21_USER_REG_RESOLUTION_T_14b_RH_12b
  else if res = htu21_resolution_t_13b_rh_10b then HTU21_USER_REG_RESOLUTION_T_13b_RH_10b
  else if res = htu21_resolution_t_12b_rh_8b then HTU21_USER_REG_RESOLUTION_T_12b_RH_8b
  else if res = htu21_resolution_t_11b_rh_11b then HTU21_USER_REG_RESOLUTION_T_11b_RH_11b
  else 0

/-- The temperature conversion time the `if`/`else if` chain of
`htu21_set_resolution` selects for `res` (the local variable is
initialized with the 14b/12b default, so any unmatched value keeps it). -/
def htu21_resolution_temperature_time (res : Nat) : Nat :=
  if res = htu21_resolution_t_14b_rh_12b then HTU21_TEMPERATURE_CONVERSION_TIME_T_14b_RH_12b
  else if res = htu21_resolution_t_13b_rh_10b then HTU21_TEMPERATURE_CONVERSION_TIME_T_13b_RH_10b
  else if res = htu21_resolution_t_12b_rh_8b then HTU21_TEMPERATURE_CONVERSION_TIME_T_12b_RH_8b
  else if res = htu21_resolution_t_11b_rh_11b then HTU21_TEMPERATURE_CONVERSION_TIME_T_11b_RH_11b
  else HTU21_TEMPERATURE_CONVERSION_TIME_T_14b_RH_12b

/-- The humidity conversion time the `if`/`else if` chain of
`htu21_set_resolution` selects for `res`. -/
def htu21_resolution_humidity_time (res : Nat) : Nat :=
  if res = htu21_resolution_t_14b_rh_12b then HTU21_HUMIDITY_CONVERSION_TIME_T_14b_RH_12b
  else if res = htu21_resolution_t_13b_rh_10b then HTU21_HUMIDITY_CONVERSION_TIME_T_13b_RH_10b
  else if res = htu21_resolution_t_12b_rh_8b then HTU21_HUMIDITY_CONVERSION_TIME_T_12b_RH_8b
  else if res = htu21_resolution_t_11b_rh_11b then HTU21_HUMIDITY_CONVERSION_TIME_T_11b_RH_11b
  else HTU21_HUMIDITY_CONVERSION_TIME_T_14b_RH_12b

/-- `htu21_set_resolution res`: selects the register bit pattern and the
two conversion times for `res` (falling back to the 14b/12b defaults for
any other value), reads the user register, clears and sets the resolution
bits, updates the two cached conversion-time globals, and writes the
register back (which re-reads the register first).  Returns the driver
status, the timing state after the call, the merged byte sent by the
register write (if reached), and the bus events. -/
def htu21_set_resolution (res : Nat) (st : TimingState) (read_bus : RegIn)
    (write_read_bus : RegIn) (write_status : status_code) :
    htu21_status × TimingState × Option Nat × List Ev :=
  let tmp := htu21_set_resolution_tmp res
  let temperature_conversion_time := htu21_resolution_temperature_time res
  let humidity_conversion_time := htu21_resolution_humidity_time res
  let r := htu21_read_user_register read_bus
  if r.1 ≠ htu21_status.ok then (r.1, st, none, r.2.2)
  else
    let reg_value0 := r.2.1.getD 0
    -- reg_value &= ~HTU21_USER_REG_RESOLUTION_MASK (on a uint8: & 0x7E)
    let reg_value1 := reg_value0 &&& (0xFF ^^^ HTU21_USER_REG_RESOLUTION_MASK)
    let reg_value := reg_value1 ||| (tmp &&& HTU21_USER_REG_RESOLUTION_MASK)
    let st2 : TimingState := ⟨temperature_conversion_time, humidity_conversion_time⟩
    let w := htu21_write_user_register reg_value write_read_bus write_status
    (w.1, st2, w.2.1, r.2.2 ++ w.2.2)

/-- Outcome of the bus transactions of one conversion-and-read sequence:
the status of the measurement command write, and the status and the three
bytes of the 3-byte read. -/
structure AdcBus where
  cmd_status : status_code
  read_status : status_code
  b0 : Nat
  b1 : Nat
  b2 : Nat
deriving DecidableEq, Repr

/-- Shared body of the two `*_conversion_and_read_adc` functions: in hold
mode send the hold-variant command without a stop condition, otherwise
send the no-hold command and sleep `conversion_time/1000` milliseconds;
then read 3 bytes, assemble the big-endian ADC value, and CRC-check it.
The ADC output is present exactly when the whole sequence succeeds. -/
def htu21_conversion_and_read_adc (cmd_hold cmd_no_hold : Nat)
    (mode : htu21_i2c_master_mode) (conversion_time : Nat) (bus : AdcBus) :
    htu21_status × Option Nat × List Ev :=
  let (status0, tr0) :=
    if mode = htu21_i2c_master_mode.htu21_i2c_hold then
      (map_i2c_status bus.cmd_status, [Ev.writeNoStop [cmd_hold]])
    else
      (map_i2c_status bus.cmd_status,
        [Ev.write [cmd_no_hold], Ev.delay_ms (conversion_time / 1000)])
  if status0 ≠ htu21_status.ok then (status0, none, tr0)
  else if bus.read_status = status_code.STATUS_ERR_OVERFLOW then
    (htu21_status.no_i2c_acknowledge, none, tr0 ++ [Ev.read 3])
  else if bus.read_status ≠ status_code.STATUS_OK then
    (htu21_status.i2c_transfer_error, none, tr0 ++ [Ev.read 3])
  else
    let adc := ((bus.b0 % 256) <<< 8) ||| (bus.b1 % 256)
    let crc := bus.b2 % 256
    let cstat := htu21_crc_check adc crc
    if cstat ≠ htu21_status.ok then (cstat, none, tr0 ++ [Ev.read 3])
    else (htu21_status.ok, some adc, tr0 ++ [Ev.read 3])

/-- `htu21_temperature_conversion_and_read_adc`. -/
def htu21_temperature_conversion_and_read_adc (mode : htu21_i2c_master_mode)
    (temperature_conversion_time : Nat) (bus : AdcBus) :
    htu21_status × Option Nat × List Ev :=
  htu21_conversion_and_read_adc HTU21_READ_TEMPERATURE_W_HOLD_COMMAND
    HTU21_READ_TEMPERATURE_WO_HOLD_COMMAND mode temperature_conversion_time bus

/-- `htu21_humidity_conversion_and_read_adc`. -/
def htu21_humidity_conversion_and_read_adc (mode : htu21_i2c_master_mode)
    (humidity_conversion_time : Nat) (bus : AdcBus) :
    htu21_status × Option Nat × List Ev :=
  htu21_conversion_and_read_adc HTU21_READ_HUMIDITY_W_HOLD_COMMAND
    HTU21_READ_HUMIDITY_WO_HOLD_COMMAND mode humidity_conversion_time bus

-- Processing constants.  The C float/double arithmetic of the conversion
-- formulas is modelled exactly over ℚ.
def TEMPERATURE_COEFF_MUL : ℚ := 17572 / 100
def TEMPERATURE_COEFF_ADD : ℚ := -(4685 / 100)
def HUMIDITY_COEFF_MUL : ℚ := 125
def HUMIDITY_COEFF_ADD : ℚ := -6
def HTU21_TEMPERATURE_COEFFICIENT : ℚ := -(15 / 100)
def HTU21_CONSTANT_A : ℚ := 81332 / 10000
def HTU21_CONSTANT_B : ℚ := 176239 / 100
def HTU21_CONSTANT_C : ℚ := 23566 / 100

/-- Temperature conversion of `htu21_read_temperature_and_relative_humidity`:
`(float)adc * TEMPERATURE_COEFF_MUL / (1UL << 16) + TEMPERATURE_COEFF_ADD`. -/
def temperature_from_adc (adc : Nat) : ℚ :=
  (adc : ℚ) * TEMPERATURE_COEFF_MUL / 65536 + TEMPERATURE_COEFF_ADD

/-- Humidity conversion of `htu21_read_temperature_and_relative_humidity`:
`(float)adc * HUMIDITY_COEFF_MUL / (1UL << 16) + HUMIDITY_COEFF_ADD`. -/
def humidity_from_adc (adc : Nat) : ℚ :=
  (adc : ℚ) * HUMIDITY_COEFF_MUL / 65536 + HUMIDITY_COEFF_ADD

/-- `htu21_read_temperature_and_relative_humidity`: runs the temperature
conversion-and-read sequence, converts the ADC value and writes the
temperature out-parameter; then runs the humidity sequence, converts and
writes the humidity out-parameter.  Each `Option` output is `some` exactly
when the corresponding out-parameter was written. -/
def htu21_read_temperature_and_relative_humidity (mode : htu21_i2c_master_mode)
    (st : TimingState) (tbus hbus : AdcBus) :
    htu21_status × Option ℚ × Option ℚ × List Ev :=
  let t := htu21_temperature_conversion_and_read_adc mode
    st.htu21_temperature_conversion_time tbus
  if t.1 ≠ htu21_status.ok then (t.1, none, none, t.2.2)
  else
    let temperature := temperature_from_adc (t.2.1.getD 0)
    let h := htu21_humidity_conversion_and_read_adc mode
      st.htu21_humidity_conversion_time hbus
    if h.1 ≠ htu21_status.ok then (h.1, some temperature, none, t.2.2 ++ h.2.2)
    else
      (htu21_status.ok, some temperature,
        some (humidity_from_adc (h.2.1.getD 0)), t.2.2 ++ h.2.2)

/-- `htu21_read_serial_number`: issues the first serial command as a
no-stop two-byte write (its return status is discarded by the source),
reads 8 bytes, issues the second serial command (status again discarded),
reads 6 bytes, CRC-checks the 8-byte payload as four (byte, checksum)
pairs and the 6-byte payload as two (16-bit value, checksum) pairs, and
assembles the serial number from bytes 0, 2, 4, 6, 8, 9, 11, 12.
`w1`/`w2` are the statuses of the two command writes, `s1`/`first_bytes`
and `s2`/`last_bytes` the read outcomes (bytes indexed from 0). -/
def htu21_read_serial_number (w1 : status_code) (s1 : status_code)
    (first_bytes : Nat → Nat) (w2 : status_code) (s2 : status_code)
    (last_bytes : Nat → Nat) : htu21_status × Option Nat × List Ev :=
  let tr1 := [Ev.writeNoStop [0xFA, 0x0F], Ev.read 8]
  if s1 = status_code.STATUS_ERR_OVERFLOW then
    (htu21_status.no_i2c_acknowledge, none, tr1)
  else if s1 ≠ status_code.STATUS_OK then
    (htu21_status.i2c_transfer_error, none, tr1)
  else
    let tr2 := tr1 ++ [Ev.writeNoStop [0xFC, 0xC9], Ev.read 6]
    if s2 = status_code.STATUS_ERR_OVERFLOW then
      (htu21_status.no_i2c_acknowledge, none, tr2)
    else if s2 ≠ status_code.STATUS_OK then
      (htu21_status.i2c_transfer_error, none, tr2)
    else
      let rcv : Nat → Nat := fun i =>
        if i < 8 then first_bytes i % 256 else last_bytes (i - 8) % 256
      let c0 := htu21_crc_check (rcv 0) (rcv 1)
      if c0 ≠ htu21_status.ok then (c0, none, tr2)
      else
        let c2 := htu21_crc_check (rcv 2) (rcv 3)
        if c2 ≠ htu21_status.ok then (c2, none, tr2)
        else
          let c4 := htu21_crc_check (rcv 4) (rcv 5)
          if c4 ≠ htu21_status.ok then (c4, none, tr2)
          else
            let c6 := htu21_crc_check (rcv 6) (rcv 7)
            if c6 ≠ htu21_status.ok then (c6, none, tr2)
            else
              let c8 := htu21_crc_check ((rcv 8 <<< 8) ||| rcv 9) (rcv 10)
              if c8 ≠ htu21_status.ok then (c8, none, tr2)
              else
                let c11 := htu21_crc_check ((rcv 11 <<< 8) ||| rcv 12) (rcv 13)
                if c11 ≠ htu21_status.ok then (c11, none, tr2)
                else
                  (htu21_status.ok, some
                    ((rcv 0 <<< 56) ||| (rcv 2 <<< 48) ||| (rcv 4 <<< 40) |||
                     (rcv 6 <<< 32) ||| (rcv 8 <<< 24) ||| (rcv 9 <<< 16) |||
                     (rcv 11 <<< 8) ||| (rcv 12 <<< 0)), tr2)

/-- `htu21_compute_compensated_humidity`:
`relative_humidity + (25 - temperature) * HTU21_TEMPERATURE_COEFFICIENT`. -/
def htu21_compute_compensated_humidity (temperature relative_humidity : ℚ) : ℚ :=
  relative_humidity + (25 - temperature) * HTU21_TEMPERATURE_COEFFICIENT

/-- The exponent `HTU21_CONSTANT_A - HTU21_CONSTANT_B / (temperature +
HTU21_CONSTANT_C)` fed to `pow(10, ·)` in `htu21_compute_dew_point`. -/
def htu21_dew_point_exponent (temperature : ℚ) : ℚ :=
  HTU21_CONSTANT_A - HTU21_CONSTANT_B / (temperature + HTU21_CONSTANT_C)

/-- The argument `relative_humidity * partial_pressure / 100` fed to
`log10` in `htu21_compute_dew_point`, with the transcendental
`partial_pressure = pow(10, exponent)` supplied as an oracle `pow10`. -/
def htu21_dew_point_log_argument (pow10 : ℚ → ℚ)
    (temperature relative_humidity : ℚ) : ℚ :=
  relative_humidity * pow10 (htu21_dew_point_exponent temperature) / 100

/-- `htu21_compute_dew_point`: computes the partial pressure and the dew
point unconditionally — there is no input validation and no error return
channel in its `float(float, float)` signature.  The two transcendental
library functions are supplied as oracles `pow10 = pow(10, ·)` and
`log10`. -/
def htu21_compute_dew_point (pow10 log10 : ℚ → ℚ)
    (temperature relative_humidity : ℚ) : ℚ :=
  let partial_pressure := pow10 (htu21_dew_point_exponent temperature)
  let dew_point := -HTU21_CONSTANT_B /
    (log10 (relative_humidity * partial_pressure / 100) - HTU21_CONSTANT_A)
    - HTU21_CONSTANT_C
  dew_point

/-! Claim theorems. -/

/-- A CRC check that does not succeed reports exactly `crc_error`. -/
lemma htu21_crc_check_ne_ok {x y : Nat}
    (h : htu21_crc_check x y ≠ htu21_status.ok) :
    htu21_crc_check x y = htu21_status.crc_error := by
  unfold htu21_crc_check at *
  by_cases hx : htu21_crc_result x = y
  · exact absurd (if_pos hx) h
  · exact if_neg hx

/-- C2: for every 16-bit value `v`, `htu21_crc_check v c` succeeds exactly
when `c` is the reference CRC-8 of `v` (polynomial `x^8 + x^5 + x^4 + 1`,
MSB-first, no reflection, initial remainder 0, over `v` padded with a
trailing zero byte); in particular checking the correct checksum succeeds,
and flipping any single bit of the correct checksum makes the check report
`crc_error`. -/
theorem claim_C2_crc_check_correct :
    ∀ v, v < 65536 → ∀ c,
      (htu21_crc_check v c = htu21_status.ok ↔ c = crc8_spec v) ∧
      htu21_crc_check v (crc8_spec v) = htu21_status.ok ∧
      (∀ i, i < 8 →
        htu21_crc_check v (crc8_spec v ^^^ (1 <<< i)) = htu21_status.crc_error) := by
  intro v _ c
  have hres := htu21_crc_result_eq_crc8_spec v
  refine ⟨?_, ?_, ?_⟩
  · unfold htu21_crc_check
    rw [hres]
    constructor
    · intro h
      by_cases hc : crc8_spec v = c
      · exact hc.symm
      · rw [if_neg hc] at h
        exact absurd h (by decide)
    · intro h
      rw [if_pos h.symm]
  · unfold htu21_crc_check
    rw [hres, if_pos rfl]
  · intro i _
    unfold htu21_crc_check
    rw [hres, if_neg ?_]
    intro he
    have h1 : (1 : Nat) <<< i ≠ 0 := by
      rw [Nat.one_shiftLeft]
      exact (Nat.two_pow_pos i).ne'
    have h2 : crc8_spec v ^^^ (crc8_spec v ^^^ 1 <<< i)
        = crc8_spec v ^^^ crc8_spec v := by rw [← he]
    rw [← Nat.xor_assoc, Nat.xor_self, Nat.zero_xor] at h2
    exact h1 h2

/-- Witness for C2 at the 16-bit value 0x683A: the correct checksum
validates and the checksum with bit 0 flipped is rejected. -/
theorem claim_C2_witness :
    htu21_crc_check 0x683A (crc8_spec 0x683A) = htu21_status.ok ∧
    htu21_crc_check 0x683A (crc8_spec 0x683A ^^^ (1 <<< 0))
      = htu21_status.crc_error := by
  refine ⟨(claim_C2_crc_check_correct 0x683A (by norm_num) 0).2.1,
    (claim_C2_crc_check_correct 0x683A (by norm_num) 0).2.2 0 (by norm_num)⟩

/-- C8: `htu21_compute_compensated_humidity 25 x = x` for every humidity
value `x`: at temperature 25 the compensation term vanishes. -/
theorem claim_C8_compensated_humidity_identity_at_25 (x : ℚ) :
    htu21_compute_compensated_humidity 25 x = x := by
  unfold htu21_compute_compensated_humidity
  ring

/-- C5: `htu21_compute_dew_point` performs no domain check and has no
error channel.  For every temperature `t` the argument handed to `log10`
at relative humidity 0 is 0 (outside the domain of `log10`), and at the
failing input `(25, 0)` the function still returns the value computed from
`log10 0` instead of signalling a domain error — its result type is a
plain number, so no `DomainError` can be reported at all. -/
theorem claim_C5_dew_point_no_domain_guard :
    ∀ pow10 log10 : ℚ → ℚ, ∀ t : ℚ,
      htu21_dew_point_log_argument pow10 t 0 = 0 ∧
      htu21_compute_dew_point pow10 log10 25 0
        = -HTU21_CONSTANT_B / (log10 0 - HTU21_CONSTANT_A) - HTU21_CONSTANT_C := by
  intro pow10 log10 t
  constructor
  · unfold htu21_dew_point_log_argument
    ring
  · unfold htu21_compute_dew_point
    norm_num

/-- On a byte, masking with the C `int` reserved mask `0xFFFFFF38` is the
same as masking with its low byte `0x38`. -/
lemma and_reserved_mask_byte {a : Nat} (ha : a < 256) :
    a &&& 0xFFFFFF38 = a &&& 0x38 := by
  apply Nat.eq_of_testBit_eq
  intro i
  simp only [Nat.testBit_and]
  by_cases h : i < 8
  · interval_cases i <;> rfl
  · have ha' : a.testBit i = false :=
      Nat.testBit_lt_two_pow
        (lt_of_lt_of_le ha (by
          calc (256 : Nat) = 2 ^ 8 := by norm_num
            _ ≤ 2 ^ i := Nat.pow_le_pow_right (by norm_num) (by omega)))
    simp [ha']

/-- The reserved bits of the merged register byte come from the current
register byte. -/
lemma merge_reserved_bits (cur v : Nat) :
    ((cur &&& 0x38) ||| (v &&& 0xC7)) &&& 0x38 = cur &&& 0x38 := by
  rw [Nat.and_distrib_right, Nat.and_assoc, Nat.and_assoc,
    show (0x38 : Nat) &&& 0x38 = 0x38 by decide,
    show (0xC7 : Nat) &&& 0x38 = 0 by decide,
    Nat.and_zero, Nat.or_zero]

/-- The non-reserved bits of the merged register byte come from the target
byte. -/
lemma merge_target_bits (cur v : Nat) :
    ((cur &&& 0x38) ||| (v &&& 0xC7)) &&& 0xC7 = v &&& 0xC7 := by
  rw [Nat.and_distrib_right, Nat.and_assoc, Nat.and_assoc,
    show (0x38 : Nat) &&& 0xC7 = 0 by decide,
    show (0xC7 : Nat) &&& 0xC7 = 0xC7 by decide,
    Nat.and_zero, Nat.zero_or]

/-- C1: for every target byte and every current on-device register byte,
`htu21_write_user_register` first reads the register and then issues the
write with the merged byte `(current &&& 0x38) ||| (target &&& 0xC7)`
(the reserved mask being 0x38 on a byte), so the byte sent has its
reserved bits equal to the pre-write reserved bits and all non-reserved
bits taken from the target, regardless of the reserved bits of the
target. -/
theorem claim_C1_write_user_register_merge
    (value : Nat) (read_bus : RegIn) (write_status : status_code)
    (hc : read_bus.cmd_status = status_code.STATUS_OK)
    (hr : read_bus.read_status = status_code.STATUS_OK) :
    htu21_write_user_register value read_bus write_status
      = (map_i2c_status write_status,
         some (((read_bus.read_byte % 256) &&& 0x38) ||| (value &&& 0xC7)),
         [Ev.write [HTU21_READ_USER_REG_COMMAND], Ev.read 1,
          Ev.write [HTU21_WRITE_USER_REG_COMMAND,
            ((read_bus.read_byte % 256) &&& 0x38) ||| (value &&& 0xC7)]]) ∧
    ((((read_bus.read_byte % 256) &&& 0x38) ||| (value &&& 0xC7)) &&& 0x38
      = (read_bus.read_byte % 256) &&& 0x38) ∧
    ((((read_bus.read_byte % 256) &&& 0x38) ||| (value &&& 0xC7)) &&& 0xC7
      = value &&& 0xC7) := by
  obtain ⟨c, r, byte⟩ := read_bus
  simp only at hc hr
  subst hc; subst hr
  refine ⟨?_, merge_reserved_bits _ _, merge_target_bits _ _⟩
  have hmask := and_reserved_mask_byte (Nat.mod_lt byte (show 0 < 256 by norm_num))
  simp [htu21_write_user_register, htu21_read_user_register, map_i2c_status,
    HTU21_USER_REG_RESERVED_MASK, HTU21_USER_REG_RESERVED_MASK_COMPL, hmask]

/-- Cache update law of `htu21_set_resolution`: as soon as the initial
register read succeeds the cached pair is set to the selected conversion
times, before and regardless of the outcome of the register write; it is
left unchanged exactly when the initial read fails. -/
lemma htu21_set_resolution_cache (res : Nat) (st : TimingState)
    (read_bus write_read_bus : RegIn) (write_status : status_code) :
    ((htu21_read_user_register read_bus).1 = htu21_status.ok →
      (htu21_set_resolution res st read_bus write_read_bus write_status).2.1
        = ⟨htu21_resolution_temperature_time res,
           htu21_resolution_humidity_time res⟩)
    ∧ ((htu21_read_user_register read_bus).1 ≠ htu21_status.ok →
      (htu21_set_resolution res st read_bus write_read_bus write_status).2.1
        = st) := by
  constructor
  · intro h
    simp only [htu21_set_resolution]
    rw [if_neg (by simp [h])]
  · intro h
    simp only [htu21_set_resolution]
    rw [if_pos h]

/-- The register byte `htu21_set_resolution` hands to the bus (through the
merge of `htu21_write_user_register`) carries exactly the selected
pattern on the resolution bits. -/
lemma htu21_set_resolution_sent_byte (res : Nat) (st : TimingState)
    (read_bus write_read_bus : RegIn) (write_status : status_code)
    (merged : Nat)
    (h : (htu21_set_resolution res st read_bus write_read_bus write_status).2.2.1
      = some merged) :
    merged &&& 0x81 = htu21_set_resolution_tmp res &&& 0x81 := by
  simp only [htu21_set_resolution] at h
  by_cases h1 : (htu21_read_user_register read_bus).1 ≠ htu21_status.ok
  · rw [if_pos h1] at h
    simp at h
  · rw [if_neg h1] at h
    simp only [htu21_write_user_register] at h
    by_cases h2 : (htu21_read_user_register write_read_bus).1 ≠ htu21_status.ok
    · rw [if_pos h2] at h
      simp at h
    · rw [if_neg h2] at h
      simp only [Option.some.injEq] at h
      rw [← h, HTU21_USER_REG_RESERVED_MASK, HTU21_USER_REG_RESERVED_MASK_COMPL,
        HTU21_USER_REG_RESOLUTION_MASK]
      rw [Nat.and_distrib_right, Nat.and_assoc,
        show (0xFFFFFF38 : Nat) &&& 0x81 = 0 by decide, Nat.and_zero, Nat.zero_or,
        Nat.and_assoc, show (0xC7 : Nat) &&& 0x81 = 0x81 by decide,
        Nat.and_distrib_right, Nat.and_assoc,
        show ((0xFF : Nat) ^^^ 0x81) &&& 0x81 = 0 by decide, Nat.and_zero,
        Nat.zero_or, Nat.and_assoc,
        show (0x81 : Nat) &&& 0x81 = 0x81 by decide]

/-- Counterexample to C3 as stated: with the cache at the default pair
(50000, 16000), requesting the 13-bit/10-bit resolution with a successful
register read but a register write that fails with a bus timeout returns a
non-ok status — yet the cached pair has been changed to (25000, 5000)
rather than left unchanged. -/
theorem claim_C3_counterexample :
    (htu21_set_resolution htu21_resolution_t_13b_rh_10b defaultTimingState
        ⟨status_code.STATUS_OK, status_code.STATUS_OK, 2⟩
        ⟨status_code.STATUS_OK, status_code.STATUS_OK, 2⟩
        status_code.STATUS_ERR_TIMEOUT).1 = htu21_status.i2c_transfer_error ∧
    (htu21_set_resolution htu21_resolution_t_13b_rh_10b defaultTimingState
        ⟨status_code.STATUS_OK, status_code.STATUS_OK, 2⟩
        ⟨status_code.STATUS_OK, status_code.STATUS_OK, 2⟩
        status_code.STATUS_ERR_TIMEOUT).2.1 = ⟨25000, 5000⟩ ∧
    (⟨25000, 5000⟩ : TimingState) ≠ defaultTimingState :=
  ⟨rfl, rfl, by decide⟩

/-- C3 amended: when the initial register read of `htu21_set_resolution`
succeeds, the cached conversion-timing pair is updated to the requested
resolution profile before the register write is issued, so a failing
register write leaves the cache already updated (not unchanged); the
cache keeps its pre-call value exactly when the initial register read
fails. -/
theorem claim_C3_amended_cache_semantics (res : Nat) (st : TimingState)
    (read_bus write_read_bus : RegIn) (write_status : status_code) :
    ((htu21_read_user_register read_bus).1 = htu21_status.ok →
      (htu21_set_resolution res st read_bus write_read_bus write_status).2.1
        = ⟨htu21_resolution_temperature_time res,
           htu21_resolution_humidity_time res⟩)
    ∧ ((htu21_read_user_register read_bus).1 ≠ htu21_status.ok →
      (htu21_set_resolution res st read_bus write_read_bus write_status).2.1
        = st) :=
  htu21_set_resolution_cache res st read_bus write_read_bus write_status

/-- Witness for C3 (amended): concrete run in which the register write
times out after a successful read; the cache ends at the requested
13-bit/10-bit profile times. -/
theorem claim_C3_witness :
    (htu21_set_resolution htu21_resolution_t_13b_rh_10b defaultTimingState
        ⟨status_code.STATUS_OK, status_code.STATUS_OK, 2⟩
        ⟨status_code.STATUS_OK, status_code.STATUS_OK, 2⟩
        status_code.STATUS_ERR_TIMEOUT).2.1
      = ⟨htu21_resolution_temperature_time htu21_resolution_t_13b_rh_10b,
         htu21_resolution_humidity_time htu21_resolution_t_13b_rh_10b⟩ :=
  (claim_C3_amended_cache_semantics htu21_resolution_t_13b_rh_10b
    defaultTimingState ⟨status_code.STATUS_OK, status_code.STATUS_OK, 2⟩
    ⟨status_code.STATUS_OK, status_code.STATUS_OK, 2⟩
    status_code.STATUS_ERR_TIMEOUT).1 (by decide)

/-- C10: every resolution argument outside the four defined variants makes
`htu21_set_resolution` behave exactly as setting the 14-bit/12-bit
resolution: the observable behaviour coincides for every bus outcome, on a
successful register read the cached conversion times become 50000 µs and
16000 µs, and any register byte sent has its resolution bits (mask 0x81)
equal to 0x00; an out-of-range argument is never rejected with an error. -/
theorem claim_C10_out_of_range_resolution_defaults (res : Nat)
    (st : TimingState) (read_bus write_read_bus : RegIn)
    (write_status : status_code)
    (h14 : res ≠ htu21_resolution_t_14b_rh_12b)
    (h13 : res ≠ htu21_resolution_t_13b_rh_10b)
    (h12 : res ≠ htu21_resolution_t_12b_rh_8b)
    (h11 : res ≠ htu21_resolution_t_11b_rh_11b) :
    htu21_set_resolution res st read_bus write_read_bus write_status
      = htu21_set_resolution htu21_resolution_t_14b_rh_12b st read_bus
          write_read_bus write_status
    ∧ ((htu21_read_user_register read_bus).1 = htu21_status.ok →
        (htu21_set_resolution res st read_bus write_read_bus write_status).2.1
          = ⟨50000, 16000⟩)
    ∧ (∀ merged,
        (htu21_set_resolution res st read_bus write_read_bus write_status).2.2.1
          = some merged → merged &&& 0x81 = 0) := by
  have etmp : htu21_set_resolution_tmp res
      = htu21_set_resolution_tmp htu21_resolution_t_14b_rh_12b := by
    simp [htu21_set_resolution_tmp, h14, h13, h12, h11,
      HTU21_USER_REG_RESOLUTION_T_14b_RH_12b]
  have etemp : htu21_resolution_temperature_time res
      = htu21_resolution_temperature_time htu21_resolution_t_14b_rh_12b := by
    simp [htu21_resolution_temperature_time, h14, h13, h12, h11]
  have ehum : htu21_resolution_humidity_time res
      = htu21_resolution_humidity_time htu21_resolution_t_14b_rh_12b := by
    simp [htu21_resolution_humidity_time, h14, h13, h12, h11]
  refine ⟨?_, ?_, ?_⟩
  · simp only [htu21_set_resolution, etmp, etemp, ehum]
  · intro h
    rw [(htu21_set_resolution_cache res st read_bus write_read_bus
      write_status).1 h, etemp, ehum]
    rfl
  · intro merged h
    rw [htu21_set_resolution_sent_byte res st read_bus write_read_bus
      write_status merged h, etmp]
    decide

/-- Witness for C10 at the out-of-range value 7: the call is
indistinguishable from the 14-bit/12-bit call, and on a successful read
with a failing write the cache still ends at (50000, 16000). -/
theorem claim_C10_witness :
    htu21_set_resolution 7 ⟨13000, 3000⟩
        ⟨status_code.STATUS_OK, status_code.STATUS_OK, 2⟩
        ⟨status_code.STATUS_OK, status_code.STATUS_OK, 2⟩
        status_code.STATUS_ERR_TIMEOUT
      = htu21_set_resolution htu21_resolution_t_14b_rh_12b ⟨13000, 3000⟩
          ⟨status_code.STATUS_OK, status_code.STATUS_OK, 2⟩
          ⟨status_code.STATUS_OK, status_code.STATUS_OK, 2⟩
          status_code.STATUS_ERR_TIMEOUT ∧
    (htu21_set_resolution 7 ⟨13000, 3000⟩
        ⟨status_code.STATUS_OK, status_code.STATUS_OK, 2⟩
        ⟨status_code.STATUS_OK, status_code.STATUS_OK, 2⟩
        status_code.STATUS_ERR_TIMEOUT).2.1 = ⟨50000, 16000⟩ := by
  have h := claim_C10_out_of_range_resolution_defaults 7 ⟨13000, 3000⟩
    ⟨status_code.STATUS_OK, status_code.STATUS_OK, 2⟩
    ⟨status_code.STATUS_OK, status_code.STATUS_OK, 2⟩
    status_code.STATUS_ERR_TIMEOUT
    (by decide) (by decide) (by decide) (by decide)
  exact ⟨h.1, h.2.1 (by decide)⟩

/-- Counterexample to C4 as stated: both serial-number command writes fail
with a bus timeout, yet `htu21_read_serial_number` neither aborts nor
surfaces the error — it issues all four transactions and returns ok with
an assembled serial number, because the source discards the return value
of `i2c_master_write_packet_wait_no_stop` for both command writes. -/
theorem claim_C4_counterexample :
    htu21_read_serial_number status_code.STATUS_ERR_TIMEOUT
        status_code.STATUS_OK (fun _ => 0) status_code.STATUS_ERR_TIMEOUT
        status_code.STATUS_OK (fun _ => 0)
      = (htu21_status.ok, some 0,
         [Ev.writeNoStop [0xFA, 0x0F], Ev.read 8,
          Ev.writeNoStop [0xFC, 0xC9], Ev.read 6]) := rfl

/-- A conversion-and-read sequence whose 3-byte payload fails the CRC
check aborts with `crc_error` and never writes the ADC output. -/
lemma htu21_conversion_crc_abort (cmd_hold cmd_no_hold : Nat)
    (mode : htu21_i2c_master_mode) (conversion_time b0 b1 b2 : Nat)
    (h : htu21_crc_check (((b0 % 256) <<< 8) ||| (b1 % 256)) (b2 % 256)
      ≠ htu21_status.ok) :
    (htu21_conversion_and_read_adc cmd_hold cmd_no_hold mode conversion_time
        ⟨status_code.STATUS_OK, status_code.STATUS_OK, b0, b1, b2⟩).1
      = htu21_status.crc_error ∧
    (htu21_conversion_and_read_adc cmd_hold cmd_no_hold mode conversion_time
        ⟨status_code.STATUS_OK, status_code.STATUS_OK, b0, b1, b2⟩).2.1
      = none := by
  have h2 := htu21_crc_check_ne_ok h
  cases mode <;> constructor <;>
    simp [htu21_conversion_and_read_adc, map_i2c_status, h2]

/-- The first failing checksum group makes `htu21_read_serial_number`
return `crc_error` with the serial-number output never written. -/
lemma htu21_read_serial_number_crc_abort (fb lb : Nat → Nat)
    (h : ¬(htu21_crc_check (fb 0 % 256) (fb 1 % 256) = htu21_status.ok ∧
           htu21_crc_check (fb 2 % 256) (fb 3 % 256) = htu21_status.ok ∧
           htu21_crc_check (fb 4 % 256) (fb 5 % 256) = htu21_status.ok ∧
           htu21_crc_check (fb 6 % 256) (fb 7 % 256) = htu21_status.ok ∧
           htu21_crc_check (((lb 0 % 256) <<< 8) ||| (lb 1 % 256)) (lb 2 % 256)
             = htu21_status.ok ∧
           htu21_crc_check (((lb 3 % 256) <<< 8) ||| (lb 4 % 256)) (lb 5 % 256)
             = htu21_status.ok)) :
    (htu21_read_serial_number status_code.STATUS_OK status_code.STATUS_OK fb
        status_code.STATUS_OK status_code.STATUS_OK lb).1
      = htu21_status.crc_error ∧
    (htu21_read_serial_number status_code.STATUS_OK status_code.STATUS_OK fb
        status_code.STATUS_OK status_code.STATUS_OK lb).2.1 = none := by
  by_cases h0 : htu21_crc_check (fb 0 % 256) (fb 1 % 256) = htu21_status.ok
  case neg =>
    have := htu21_crc_check_ne_ok h0
    constructor <;> simp [htu21_read_serial_number, this]
  case pos =>
  by_cases h2 : htu21_crc_check (fb 2 % 256) (fb 3 % 256) = htu21_status.ok
  case neg =>
    have := htu21_crc_check_ne_ok h2
    constructor <;> simp [htu21_read_serial_number, h0, this]
  case pos =>
  by_cases h4 : htu21_crc_check (fb 4 % 256) (fb 5 % 256) = htu21_status.ok
  case neg =>
    have := htu21_crc_check_ne_ok h4
    constructor <;> simp [htu21_read_serial_number, h0, h2, this]
  case pos =>
  by_cases h6 : htu21_crc_check (fb 6 % 256) (fb 7 % 256) = htu21_status.ok
  case neg =>
    have := htu21_crc_check_ne_ok h6
    constructor <;> simp [htu21_read_serial_number, h0, h2, h4, this]
  case pos =>
  by_cases h8 : htu21_crc_check (((lb 0 % 256) <<< 8) ||| (lb 1 % 256))
      (lb 2 % 256) = htu21_status.ok
  case neg =>
    have := htu21_crc_check_ne_ok h8
    constructor <;> simp [htu21_read_serial_number, h0, h2, h4, h6, this]
  case pos =>
  by_cases h11 : htu21_crc_check (((lb 3 % 256) <<< 8) ||| (lb 4 % 256))
      (lb 5 % 256) = htu21_status.ok
  case neg =>
    have := htu21_crc_check_ne_ok h11
    constructor <;> simp [htu21_read_serial_number, h0, h2, h4, h6, h8, this]
  case pos =>
    exact absurd ⟨h0, h2, h4, h6, h8, h11⟩ h

/-- C4 amended: across every driver operation, the first error reported by
a bus transaction and the first checksum mismatch abort the operation
immediately (no later bus transaction of that operation is issued) and are
returned to the caller with their kind mapped unchanged — bus overflow to
`no_i2c_acknowledge`, any other bus failure to `i2c_transfer_error`, a
checksum mismatch to `crc_error` — with one exception, which is the
correction: the return statuses of the two serial-number command writes in
`htu21_read_serial_number` are discarded by the source, so their failure
neither aborts the operation nor is surfaced.  The conjuncts cover, in
order: the error-kind mapping; `htu21_read_user_register`;
`htu21_write_user_register`; `htu21_temperature_conversion_and_read_adc`
and `htu21_humidity_conversion_and_read_adc` (command-write failure in
both modes with no read issued, read failure, checksum mismatch);
`htu21_set_resolution` (a failing initial read issues no write);
`htu21_read_temperature_and_relative_humidity` (a temperature failure
starts no humidity transaction; a humidity failure is returned as is); and
`htu21_read_serial_number` (command-write statuses ignored, read failures
abort with nothing further issued, checksum mismatches abort). -/
theorem claim_C4_amended_error_propagation :
    -- error-kind mapping, shared by every call site
    (map_i2c_status status_code.STATUS_ERR_OVERFLOW
        = htu21_status.no_i2c_acknowledge ∧
     map_i2c_status status_code.STATUS_ERR_TIMEOUT
        = htu21_status.i2c_transfer_error ∧
     map_i2c_status status_code.STATUS_OK = htu21_status.ok) ∧
    -- htu21_read_user_register: first failure aborts, mapped unchanged
    (∀ s b,
      htu21_read_user_register ⟨status_code.STATUS_ERR_TIMEOUT, s, b⟩
        = (htu21_status.i2c_transfer_error, none,
           [Ev.write [HTU21_READ_USER_REG_COMMAND]]) ∧
      htu21_read_user_register ⟨status_code.STATUS_ERR_OVERFLOW, s, b⟩
        = (htu21_status.no_i2c_acknowledge, none,
           [Ev.write [HTU21_READ_USER_REG_COMMAND]]) ∧
      htu21_read_user_register
          ⟨status_code.STATUS_OK, status_code.STATUS_ERR_TIMEOUT, b⟩
        = (htu21_status.i2c_transfer_error, none,
           [Ev.write [HTU21_READ_USER_REG_COMMAND], Ev.read 1]) ∧
      htu21_read_user_register
          ⟨status_code.STATUS_OK, status_code.STATUS_ERR_OVERFLOW, b⟩
        = (htu21_status.no_i2c_acknowledge, none,
           [Ev.write [HTU21_READ_USER_REG_COMMAND], Ev.read 1])) ∧
    -- htu21_write_user_register: a failing inner read aborts with the
    -- read's own result (no write issued); the final write maps its kind
    (∀ value read_bus write_status,
      ((htu21_read_user_register read_bus).1 ≠ htu21_status.ok →
        htu21_write_user_register value read_bus write_status
          = ((htu21_read_user_register read_bus).1, none,
             (htu21_read_user_register read_bus).2.2)) ∧
      (∀ b, (htu21_write_user_register value
          ⟨status_code.STATUS_OK, status_code.STATUS_OK, b⟩ write_status).1
        = map_i2c_status write_status)) ∧
    -- temperature conversion-and-read: a failing command write issues no
    -- read in either mode; a failing read and a failing CRC abort mapped
    (∀ t s b0 b1 b2,
      htu21_temperature_conversion_and_read_adc
          htu21_i2c_master_mode.htu21_i2c_hold t
          ⟨status_code.STATUS_ERR_TIMEOUT, s, b0, b1, b2⟩
        = (htu21_status.i2c_transfer_error, none,
           [Ev.writeNoStop [HTU21_READ_TEMPERATURE_W_HOLD_COMMAND]]) ∧
      htu21_temperature_conversion_and_read_adc
          htu21_i2c_master_mode.htu21_i2c_hold t
          ⟨status_code.STATUS_ERR_OVERFLOW, s, b0, b1, b2⟩
        = (htu21_status.no_i2c_acknowledge, none,
           [Ev.writeNoStop [HTU21_READ_TEMPERATURE_W_HOLD_COMMAND]]) ∧
      htu21_temperature_conversion_and_read_adc
          htu21_i2c_master_mode.htu21_i2c_no_hold t
          ⟨status_code.STATUS_ERR_TIMEOUT, s, b0, b1, b2⟩
        = (htu21_status.i2c_transfer_error, none,
           [Ev.write [HTU21_READ_TEMPERATURE_WO_HOLD_COMMAND],
            Ev.delay_ms (t / 1000)]) ∧
      htu21_temperature_conversion_and_read_adc
          htu21_i2c_master_mode.htu21_i2c_no_hold t
          ⟨status_code.STATUS_ERR_OVERFLOW, s, b0, b1, b2⟩
        = (htu21_status.no_i2c_acknowledge, none,
           [Ev.write [HTU21_READ_TEMPERATURE_WO_HOLD_COMMAND],
            Ev.delay_ms (t / 1000)])) ∧
    (∀ mode t b0 b1 b2,
      ((htu21_temperature_conversion_and_read_adc mode t
          ⟨status_code.STATUS_OK, status_code.STATUS_ERR_TIMEOUT, b0, b1, b2⟩).1
        = htu21_status.i2c_transfer_error ∧
       (htu21_temperature_conversion_and_read_adc mode t
          ⟨status_code.STATUS_OK, status_code.STATUS_ERR_TIMEOUT, b0, b1, b2⟩).2.1
        = none) ∧
      ((htu21_temperature_conversion_and_read_adc mode t
          ⟨status_code.STATUS_OK, status_code.STATUS_ERR_OVERFLOW, b0, b1, b2⟩).1
        = htu21_status.no_i2c_acknowledge ∧
       (htu21_temperature_conversion_and_read_adc mode t
          ⟨status_code.STATUS_OK, status_code.STATUS_ERR_OVERFLOW, b0, b1, b2⟩).2.1
        = none) ∧
      (htu21_crc_check (((b0 % 256) <<< 8) ||| (b1 % 256)) (b2 % 256)
          ≠ htu21_status.ok →
       (htu21_temperature_conversion_and_read_adc mode t
          ⟨status_code.STATUS_OK, status_code.STATUS_OK, b0, b1, b2⟩).1
          = htu21_status.crc_error ∧
       (htu21_temperature_conversion_and_read_adc mode t
          ⟨status_code.STATUS_OK, status_code.STATUS_OK, b0, b1, b2⟩).2.1
          = none)) ∧
    -- humidity conversion-and-read: the same properties
    (∀ t s b0 b1 b2,
      htu21_humidity_conversion_and_read_adc
          htu21_i2c_master_mode.htu21_i2c_hold t
          ⟨status_code.STATUS_ERR_TIMEOUT, s, b0, b1, b2⟩
        = (htu21_status.i2c_transfer_error, none,
           [Ev.writeNoStop [HTU21_READ_HUMIDITY_W_HOLD_COMMAND]]) ∧
      htu21_humidity_conversion_and_read_adc
          htu21_i2c_master_mode.htu21_i2c_hold t
          ⟨status_code.STATUS_ERR_OVERFLOW, s, b0, b1, b2⟩
        = (htu21_status.no_i2c_acknowledge, none,
           [Ev.writeNoStop [HTU21_READ_HUMIDITY_W_HOLD_COMMAND]]) ∧
      htu21_humidity_conversion_and_read_adc
          htu21_i2c_master_mode.htu21_i2c_no_hold t
          ⟨status_code.STATUS_ERR_TIMEOUT, s, b0, b1, b2⟩
        = (htu21_status.i2c_transfer_error, none,
           [Ev.write [HTU21_READ_HUMIDITY_WO_HOLD_COMMAND],
            Ev.delay_ms (t / 1000)]) ∧
      htu21_humidity_conversion_and_read_adc
          htu21_i2c_master_mode.htu21_i2c_no_hold t
          ⟨status_code.STATUS_ERR_OVERFLOW, s, b0, b1, b2⟩
        = (htu21_status.no_i2c_acknowledge, none,
           [Ev.write [HTU21_READ_HUMIDITY_WO_HOLD_COMMAND],
            Ev.delay_ms (t / 1000)])) ∧
    (∀ mode t b0 b1 b2,
      ((htu21_humidity_conversion_and_read_adc mode t
          ⟨status_code.STATUS_OK, status_code.STATUS_ERR_TIMEOUT, b0, b1, b2⟩).1
        = htu21_status.i2c_transfer_error ∧
       (htu21_humidity_conversion_and_read_adc mode t
          ⟨status_code.STATUS_OK, status_code.STATUS_ERR_TIMEOUT, b0, b1, b2⟩).2.1
        = none) ∧
      ((htu21_humidity_conversion_and_read_adc mode t
          ⟨status_code.STATUS_OK, status_code.STATUS_ERR_OVERFLOW, b0, b1, b2⟩).1
        = htu21_status.no_i2c_acknowledge ∧
       (htu21_humidity_conversion_and_read_adc mode t
          ⟨status_code.STATUS_OK, status_code.STATUS_ERR_OVERFLOW, b0, b1, b2⟩).2.1
        = none) ∧
      (htu21_crc_check (((b0 % 256) <<< 8) ||| (b1 % 256)) (b2 % 256)
          ≠ htu21_status.ok →
       (htu21_humidity_conversion_and_read_adc mode t
          ⟨status_code.STATUS_OK, status_code.STATUS_OK, b0, b1, b2⟩).1
          = htu21_status.crc_error ∧
       (htu21_humidity_conversion_and_read_adc mode t
          ⟨status_code.STATUS_OK, status_code.STATUS_OK, b0, b1, b2⟩).2.1
          = none)) ∧
    -- htu21_set_resolution: a failing initial read aborts with the read's
    -- result, the state untouched and no write issued
    (∀ res st s b write_read_bus write_status,
      htu21_set_resolution res st ⟨status_code.STATUS_ERR_TIMEOUT, s, b⟩
          write_read_bus write_status
        = (htu21_status.i2c_transfer_error, st, none,
           [Ev.write [HTU21_READ_USER_REG_COMMAND]]) ∧
      htu21_set_resolution res st ⟨status_code.STATUS_ERR_OVERFLOW, s, b⟩
          write_read_bus write_status
        = (htu21_status.no_i2c_acknowledge, st, none,
           [Ev.write [HTU21_READ_USER_REG_COMMAND]]) ∧
      htu21_set_resolution res st
          ⟨status_code.STATUS_OK, status_code.STATUS_ERR_TIMEOUT, b⟩
          write_read_bus write_status
        = (htu21_status.i2c_transfer_error, st, none,
           [Ev.write [HTU21_READ_USER_REG_COMMAND], Ev.read 1]) ∧
      htu21_set_resolution res st
          ⟨status_code.STATUS_OK, status_code.STATUS_ERR_OVERFLOW, b⟩
          write_read_bus write_status
        = (htu21_status.no_i2c_acknowledge, st, none,
           [Ev.write [HTU21_READ_USER_REG_COMMAND], Ev.read 1])) ∧
    -- htu21_read_temperature_and_relative_humidity: a temperature failure
    -- aborts before any humidity transaction; a humidity failure is
    -- returned as the result unchanged
    (∀ mode st tbus hbus,
      ((htu21_temperature_conversion_and_read_adc mode
          st.htu21_temperature_conversion_time tbus).1 ≠ htu21_status.ok →
        htu21_read_temperature_and_relative_humidity mode st tbus hbus
          = ((htu21_temperature_conversion_and_read_adc mode
                st.htu21_temperature_conversion_time tbus).1, none, none,
             (htu21_temperature_conversion_and_read_adc mode
                st.htu21_temperature_conversion_time tbus).2.2)) ∧
      ((htu21_temperature_conversion_and_read_adc mode
          st.htu21_temperature_conversion_time tbus).1 = htu21_status.ok →
       (htu21_humidity_conversion_and_read_adc mode
          st.htu21_humidity_conversion_time hbus).1 ≠ htu21_status.ok →
        (htu21_read_temperature_and_relative_humidity mode st tbus hbus).1
          = (htu21_humidity_conversion_and_read_adc mode
              st.htu21_humidity_conversion_time hbus).1)) ∧
    -- htu21_read_serial_number: the command-write statuses are discarded
    (∀ w1 s1 fb w2 s2 lb,
      htu21_read_serial_number w1 s1 fb w2 s2 lb
        = htu21_read_serial_number status_code.STATUS_OK s1 fb
            status_code.STATUS_OK s2 lb) ∧
    -- htu21_read_serial_number: a failing read aborts, mapped unchanged,
    -- with no later transaction issued
    (∀ w1 fb w2 s2 lb,
      htu21_read_serial_number w1 status_code.STATUS_ERR_TIMEOUT fb w2 s2 lb
        = (htu21_status.i2c_transfer_error, none,
           [Ev.writeNoStop [0xFA, 0x0F], Ev.read 8]) ∧
      htu21_read_serial_number w1 status_code.STATUS_ERR_OVERFLOW fb w2 s2 lb
        = (htu21_status.no_i2c_acknowledge, none,
           [Ev.writeNoStop [0xFA, 0x0F], Ev.read 8])) ∧
    (∀ w1 fb w2 lb,
      htu21_read_serial_number w1 status_code.STATUS_OK fb w2
          status_code.STATUS_ERR_TIMEOUT lb
        = (htu21_status.i2c_transfer_error, none,
           [Ev.writeNoStop [0xFA, 0x0F], Ev.read 8,
            Ev.writeNoStop [0xFC, 0xC9], Ev.read 6]) ∧
      htu21_read_serial_number w1 status_code.STATUS_OK fb w2
          status_code.STATUS_ERR_OVERFLOW lb
        = (htu21_status.no_i2c_acknowledge, none,
           [Ev.writeNoStop [0xFA, 0x0F], Ev.read 8,
            Ev.writeNoStop [0xFC, 0xC9], Ev.read 6])) ∧
    -- htu21_read_serial_number: a checksum mismatch aborts with crc_error
    (∀ fb lb,
      ¬(htu21_crc_check (fb 0 % 256) (fb 1 % 256) = htu21_status.ok ∧
        htu21_crc_check (fb 2 % 256) (fb 3 % 256) = htu21_status.ok ∧
        htu21_crc_check (fb 4 % 256) (fb 5 % 256) = htu21_status.ok ∧
        htu21_crc_check (fb 6 % 256) (fb 7 % 256) = htu21_status.ok ∧
        htu21_crc_check (((lb 0 % 256) <<< 8) ||| (lb 1 % 256)) (lb 2 % 256)
          = htu21_status.ok ∧
        htu21_crc_check (((lb 3 % 256) <<< 8) ||| (lb 4 % 256)) (lb 5 % 256)
          = htu21_status.ok) →
      (htu21_read_serial_number status_code.STATUS_OK status_code.STATUS_OK fb
          status_code.STATUS_OK status_code.STATUS_OK lb).1
        = htu21_status.crc_error ∧
      (htu21_read_serial_number status_code.STATUS_OK status_code.STATUS_OK fb
          status_code.STATUS_OK status_code.STATUS_OK lb).2.1 = none) := by
  refine ⟨⟨rfl, rfl, rfl⟩, fun s b => ⟨rfl, rfl, rfl, rfl⟩, ?_, ?_, ?_, ?_, ?_,
    ?_, ?_, fun w1 s1 fb w2 s2 lb => rfl, fun w1 fb w2 s2 lb => ⟨rfl, rfl⟩,
    fun w1 fb w2 lb => ⟨rfl, rfl⟩, fun fb lb => htu21_read_serial_number_crc_abort fb lb⟩
  · intro value read_bus write_status
    constructor
    · intro h
      simp only [htu21_write_user_register]
      rw [if_pos h]
    · intro b
      rfl
  · intro t s b0 b1 b2
    exact ⟨rfl, rfl, rfl, rfl⟩
  · intro mode t b0 b1 b2
    refine ⟨?_, ?_, ?_⟩
    · cases mode <;> exact ⟨rfl, rfl⟩
    · cases mode <;> exact ⟨rfl, rfl⟩
    · exact htu21_conversion_crc_abort _ _ mode t b0 b1 b2
  · intro t s b0 b1 b2
    exact ⟨rfl, rfl, rfl, rfl⟩
  · intro mode t b0 b1 b2
    refine ⟨?_, ?_, ?_⟩
    · cases mode <;> exact ⟨rfl, rfl⟩
    · cases mode <;> exact ⟨rfl, rfl⟩
    · exact htu21_conversion_crc_abort _ _ mode t b0 b1 b2
  · intro res st s b write_read_bus write_status
    exact ⟨rfl, rfl, rfl, rfl⟩
  · intro mode st tbus hbus
    constructor
    · intro h
      simp only [htu21_read_temperature_and_relative_humidity]
      rw [if_pos h]
    · intro h1 h2
      simp only [htu21_read_temperature_and_relative_humidity]
      rw [if_neg (by simp [h1]), if_pos h2]

/-- Witness for C4 (amended), exercising the hypothesis-carrying clauses
at concrete inputs: a temperature read whose payload fails its CRC aborts
with `crc_error` and no ADC output; a serial-number read whose first
checksum group fails aborts with `crc_error` and no serial output; and a
timed-out temperature command write makes
`htu21_read_temperature_and_relative_humidity` return the temperature
error with no humidity transaction issued. -/
theorem claim_C4_witness :
    ((htu21_temperature_conversion_and_read_adc
        htu21_i2c_master_mode.htu21_i2c_no_hold 50000
        ⟨status_code.STATUS_OK, status_code.STATUS_OK, 0, 0, 1⟩).1
      = htu21_status.crc_error ∧
     (htu21_temperature_conversion_and_read_adc
        htu21_i2c_master_mode.htu21_i2c_no_hold 50000
        ⟨status_code.STATUS_OK, status_code.STATUS_OK, 0, 0, 1⟩).2.1
      = none) ∧
    ((htu21_read_serial_number status_code.STATUS_OK status_code.STATUS_OK
        (fun _ => 1) status_code.STATUS_OK status_code.STATUS_OK
        (fun _ => 1)).1 = htu21_status.crc_error ∧
     (htu21_read_serial_number status_code.STATUS_OK status_code.STATUS_OK
        (fun _ => 1) status_code.STATUS_OK status_code.STATUS_OK
        (fun _ => 1)).2.1 = none) ∧
    htu21_read_temperature_and_relative_humidity
        htu21_i2c_master_mode.htu21_i2c_no_hold defaultTimingState
        ⟨status_code.STATUS_ERR_TIMEOUT, status_code.STATUS_OK, 0, 0, 0⟩
        ⟨status_code.STATUS_OK, status_code.STATUS_OK, 0, 0, 0⟩
      = ((htu21_temperature_conversion_and_read_adc
            htu21_i2c_master_mode.htu21_i2c_no_hold
            defaultTimingState.htu21_temperature_conversion_time
            ⟨status_code.STATUS_ERR_TIMEOUT, status_code.STATUS_OK, 0, 0, 0⟩).1,
         none, none,
         (htu21_temperature_conversion_and_read_adc
            htu21_i2c_master_mode.htu21_i2c_no_hold
            defaultTimingState.htu21_temperature_conversion_time
            ⟨status_code.STATUS_ERR_TIMEOUT, status_code.STATUS_OK, 0, 0, 0⟩).2.2) := by
  obtain ⟨-, -, -, -, hTempChk, -, -, -, hReadBoth, -, -, -, hSerialCrc⟩ :=
    claim_C4_amended_error_propagation
  refine ⟨(hTempChk htu21_i2c_master_mode.htu21_i2c_no_hold 50000 0 0 1).2.2
      (by decide),
    hSerialCrc (fun _ => 1) (fun _ => 1) (by decide),
    (hReadBoth htu21_i2c_master_mode.htu21_i2c_no_hold defaultTimingState
      ⟨status_code.STATUS_ERR_TIMEOUT, status_code.STATUS_OK, 0, 0, 0⟩
      ⟨status_code.STATUS_OK, status_code.STATUS_OK, 0, 0, 0⟩).1 (by decide)⟩

/-- C6: for fixed payloads whose six checksum groups (four byte/checksum
pairs in the 8-byte payload, two big-endian 16-bit/checksum pairs in the
6-byte payload) all verify, `htu21_read_serial_number` returns ok with
the 64-bit value assembled from data bytes 0, 2, 4, 6 of the first
payload and 0, 1, 3, 4 of the second (most significant first); and if any
checksum group fails, it returns `crc_error` and the serial-number output
is never written. -/
theorem claim_C6_serial_number_assembly (fb lb : Nat → Nat)
    (hfb : ∀ i, fb i < 256) (hlb : ∀ i, lb i < 256) :
    ((htu21_crc_check (fb 0) (fb 1) = htu21_status.ok ∧
      htu21_crc_check (fb 2) (fb 3) = htu21_status.ok ∧
      htu21_crc_check (fb 4) (fb 5) = htu21_status.ok ∧
      htu21_crc_check (fb 6) (fb 7) = htu21_status.ok ∧
      htu21_crc_check ((lb 0 <<< 8) ||| lb 1) (lb 2) = htu21_status.ok ∧
      htu21_crc_check ((lb 3 <<< 8) ||| lb 4) (lb 5) = htu21_status.ok) →
      htu21_read_serial_number status_code.STATUS_OK status_code.STATUS_OK fb
          status_code.STATUS_OK status_code.STATUS_OK lb
        = (htu21_status.ok,
           some ((fb 0 <<< 56) ||| (fb 2 <<< 48) ||| (fb 4 <<< 40) |||
                 (fb 6 <<< 32) ||| (lb 0 <<< 24) ||| (lb 1 <<< 16) |||
                 (lb 3 <<< 8) ||| (lb 4 <<< 0)),
           [Ev.writeNoStop [0xFA, 0x0F], Ev.read 8,
            Ev.writeNoStop [0xFC, 0xC9], Ev.read 6])) ∧
    (¬(htu21_crc_check (fb 0) (fb 1) = htu21_status.ok ∧
       htu21_crc_check (fb 2) (fb 3) = htu21_status.ok ∧
       htu21_crc_check (fb 4) (fb 5) = htu21_status.ok ∧
       htu21_crc_check (fb 6) (fb 7) = htu21_status.ok ∧
       htu21_crc_check ((lb 0 <<< 8) ||| lb 1) (lb 2) = htu21_status.ok ∧
       htu21_crc_check ((lb 3 <<< 8) ||| lb 4) (lb 5) = htu21_status.ok) →
      (htu21_read_serial_number status_code.STATUS_OK status_code.STATUS_OK fb
          status_code.STATUS_OK status_code.STATUS_OK lb).1
        = htu21_status.crc_error ∧
      (htu21_read_serial_number status_code.STATUS_OK status_code.STATUS_OK fb
          status_code.STATUS_OK status_code.STATUS_OK lb).2.1 = none) := by
  have efb : ∀ i, fb i % 256 = fb i := fun i => Nat.mod_eq_of_lt (hfb i)
  have elb : ∀ i, lb i % 256 = lb i := fun i => Nat.mod_eq_of_lt (hlb i)
  constructor
  · rintro ⟨h0, h2, h4, h6, h8, h11⟩
    simp [htu21_read_serial_number, efb, elb, h0, h2, h4, h6, h8, h11]
  · intro hnot
    by_cases h0 : htu21_crc_check (fb 0) (fb 1) = htu21_status.ok
    case neg =>
      have := htu21_crc_check_ne_ok h0
      constructor <;>
        simp [htu21_read_serial_number, efb, elb, this]
    case pos =>
    by_cases h2 : htu21_crc_check (fb 2) (fb 3) = htu21_status.ok
    case neg =>
      have := htu21_crc_check_ne_ok h2
      constructor <;>
        simp [htu21_read_serial_number, efb, elb, h0, this]
    case pos =>
    by_cases h4 : htu21_crc_check (fb 4) (fb 5) = htu21_status.ok
    case neg =>
      have := htu21_crc_check_ne_ok h4
      constructor <;>
        simp [htu21_read_serial_number, efb, elb, h0, h2, this]
    case pos =>
    by_cases h6 : htu21_crc_check (fb 6) (fb 7) = htu21_status.ok
    case neg =>
      have := htu21_crc_check_ne_ok h6
      constructor <;>
        simp [htu21_read_serial_number, efb, elb, h0, h2, h4, this]
    case pos =>
    by_cases h8 : htu21_crc_check ((lb 0 <<< 8) ||| lb 1) (lb 2) = htu21_status.ok
    case neg =>
      have := htu21_crc_check_ne_ok h8
      constructor <;>
        simp [htu21_read_serial_number, efb, elb, h0, h2, h4, h6, this]
    case pos =>
    by_cases h11 : htu21_crc_check ((lb 3 <<< 8) ||| lb 4) (lb 5) = htu21_status.ok
    case neg =>
      have := htu21_crc_check_ne_ok h11
      constructor <;>
        simp [htu21_read_serial_number, efb, elb, h0, h2, h4, h6, h8, this]
    case pos =>
      exact absurd ⟨h0, h2, h4, h6, h8, h11⟩ hnot

/-- Witness for C6: the all-zero payloads, whose checksum groups all
verify (the CRC of 0 is 0), assemble to serial number 0. -/
theorem claim_C6_witness :
    htu21_read_serial_number status_code.STATUS_OK status_code.STATUS_OK
        (fun _ => 0) status_code.STATUS_OK status_code.STATUS_OK (fun _ => 0)
      = (htu21_status.ok,
         some (((0 : Nat) <<< 56) ||| (0 <<< 48) ||| (0 <<< 40) |||
               (0 <<< 32) ||| (0 <<< 24) ||| (0 <<< 16) |||
               (0 <<< 8) ||| (0 <<< 0)),
         [Ev.writeNoStop [0xFA, 0x0F], Ev.read 8,
          Ev.writeNoStop [0xFC, 0xC9], Ev.read 6]) := by
  have hz : ∀ i : Nat, (fun _ : Nat => (0 : Nat)) i < 256 := fun _ => by norm_num
  exact (claim_C6_serial_number_assembly (fun _ => 0) (fun _ => 0) hz hz).1
    ⟨by decide, by decide, by decide, by decide, by decide, by decide⟩

/-- C7: in no-hold mode at the default 14-bit/12-bit timing profile, a
fully successful `htu21_read_temperature_and_relative_humidity` performs,
in order: the no-hold temperature command write (0xF3), a 50000/1000 ms
sleep (i.e. a 50000 µs wait), a 3-byte read converted via
`adc * 175.72 / 65536 - 46.85`; then the no-hold humidity command write
(0xF5), a 16000/1000 ms sleep (16000 µs), and a 3-byte read converted via
`adc * 125 / 65536 - 6`. -/
theorem claim_C7_no_hold_default_sequence (tbus hbus : AdcBus)
    (htc : tbus.cmd_status = status_code.STATUS_OK)
    (htr : tbus.read_status = status_code.STATUS_OK)
    (htcrc : htu21_crc_check (((tbus.b0 % 256) <<< 8) ||| (tbus.b1 % 256))
      (tbus.b2 % 256) = htu21_status.ok)
    (hhc : hbus.cmd_status = status_code.STATUS_OK)
    (hhr : hbus.read_status = status_code.STATUS_OK)
    (hhcrc : htu21_crc_check (((hbus.b0 % 256) <<< 8) ||| (hbus.b1 % 256))
      (hbus.b2 % 256) = htu21_status.ok) :
    htu21_read_temperature_and_relative_humidity
        htu21_i2c_master_mode.htu21_i2c_no_hold defaultTimingState tbus hbus
      = (htu21_status.ok,
         some (((((tbus.b0 % 256) <<< 8) ||| (tbus.b1 % 256) : Nat) : ℚ)
           * (17572 / 100) / 65536 - 4685 / 100),
         some (((((hbus.b0 % 256) <<< 8) ||| (hbus.b1 % 256) : Nat) : ℚ)
           * 125 / 65536 - 6),
         [Ev.write [HTU21_READ_TEMPERATURE_WO_HOLD_COMMAND],
          Ev.delay_ms (50000 / 1000), Ev.read 3,
          Ev.write [HTU21_READ_HUMIDITY_WO_HOLD_COMMAND],
          Ev.delay_ms (16000 / 1000), Ev.read 3]) := by
  obtain ⟨tc, trs, tb0, tb1, tb2⟩ := tbus
  obtain ⟨hc, hrs, hb0, hb1, hb2⟩ := hbus
  simp only at htc htr htcrc hhc hhr hhcrc
  subst htc; subst htr; subst hhc; subst hhr
  simp [htu21_read_temperature_and_relative_humidity,
    htu21_temperature_conversion_and_read_adc,
    htu21_humidity_conversion_and_read_adc, htu21_conversion_and_read_adc,
    map_i2c_status, defaultTimingState,
    HTU21_TEMPERATURE_CONVERSION_TIME_T_14b_RH_12b,
    HTU21_HUMIDITY_CONVERSION_TIME_T_14b_RH_12b, htcrc, hhcrc,
    temperature_from_adc, humidity_from_adc, TEMPERATURE_COEFF_MUL,
    TEMPERATURE_COEFF_ADD, HUMIDITY_COEFF_MUL, HUMIDITY_COEFF_ADD]
  constructor <;> ring

/-- Witness for C7: both reads return the all-zero payload (whose CRC is
0), converting to -46.85 °C and -6 %RH. -/
theorem claim_C7_witness :
    htu21_read_temperature_and_relative_humidity
        htu21_i2c_master_mode.htu21_i2c_no_hold defaultTimingState
        ⟨status_code.STATUS_OK, status_code.STATUS_OK, 0, 0, 0⟩
        ⟨status_code.STATUS_OK, status_code.STATUS_OK, 0, 0, 0⟩
      = (htu21_status.ok,
         some (((((0 % 256) <<< 8) ||| (0 % 256) : Nat) : ℚ)
           * (17572 / 100) / 65536 - 4685 / 100),
         some (((((0 % 256) <<< 8) ||| (0 % 256) : Nat) : ℚ) * 125 / 65536 - 6),
         [Ev.write [HTU21_READ_TEMPERATURE_WO_HOLD_COMMAND],
          Ev.delay_ms (50000 / 1000), Ev.read 3,
          Ev.write [HTU21_READ_HUMIDITY_WO_HOLD_COMMAND],
          Ev.delay_ms (16000 / 1000), Ev.read 3]) :=
  claim_C7_no_hold_default_sequence
    ⟨status_code.STATUS_OK, status_code.STATUS_OK, 0, 0, 0⟩
    ⟨status_code.STATUS_OK, status_code.STATUS_OK, 0, 0, 0⟩
    rfl rfl (by decide) rfl rfl (by decide)

/-- C9: `htu21_read_temperature_and_relative_humidity` is not atomic in
its outputs: whenever the temperature sequence succeeds, the temperature
out-parameter is written with the converted value even if the humidity
sequence then fails and the call returns that error (the humidity
out-parameter stays untouched); whenever the temperature sequence fails,
neither out-parameter is written. -/
theorem claim_C9_outputs_not_atomic (mode : htu21_i2c_master_mode)
    (st : TimingState) (tbus hbus : AdcBus) :
    ((htu21_temperature_conversion_and_read_adc mode
        st.htu21_temperature_conversion_time tbus).1 = htu21_status.ok →
      (htu21_humidity_conversion_and_read_adc mode
        st.htu21_humidity_conversion_time hbus).1 ≠ htu21_status.ok →
      (htu21_read_temperature_and_relative_humidity mode st tbus hbus).2.1
        = some (temperature_from_adc
            ((htu21_temperature_conversion_and_read_adc mode
              st.htu21_temperature_conversion_time tbus).2.1.getD 0)) ∧
      (htu21_read_temperature_and_relative_humidity mode st tbus hbus).2.2.1
        = none ∧
      (htu21_read_temperature_and_relative_humidity mode st tbus hbus).1
        = (htu21_humidity_conversion_and_read_adc mode
            st.htu21_humidity_conversion_time hbus).1 ∧
      (htu21_read_temperature_and_relative_humidity mode st tbus hbus).1
        ≠ htu21_status.ok) ∧
    ((htu21_temperature_conversion_and_read_adc mode
        st.htu21_temperature_conversion_time tbus).1 ≠ htu21_status.ok →
      (htu21_read_temperature_and_relative_humidity mode st tbus hbus).2.1
        = none ∧
      (htu21_read_temperature_and_relative_humidity mode st tbus hbus).2.2.1
        = none) := by
  constructor
  · intro ht hh
    simp only [htu21_read_temperature_and_relative_humidity]
    rw [if_neg (by simp [ht]), if_pos hh]
    exact ⟨rfl, rfl, rfl, hh⟩
  · intro ht
    simp only [htu21_read_temperature_and_relative_humidity]
    rw [if_pos ht]
    exact ⟨rfl, rfl⟩

/-- Witness for C9: the temperature read succeeds with the all-zero
payload and the humidity read times out; the temperature output is
written, the humidity output is not, and the error is returned. -/
theorem claim_C9_witness :
    (htu21_read_temperature_and_relative_humidity
        htu21_i2c_master_mode.htu21_i2c_no_hold defaultTimingState
        ⟨status_code.STATUS_OK, status_code.STATUS_OK, 0, 0, 0⟩
        ⟨status_code.STATUS_OK, status_code.STATUS_ERR_TIMEOUT, 0, 0, 0⟩).2.1
      = some (temperature_from_adc
          ((htu21_temperature_conversion_and_read_adc
            htu21_i2c_master_mode.htu21_i2c_no_hold
            defaultTimingState.htu21_temperature_conversion_time
            ⟨status_code.STATUS_OK, status_code.STATUS_OK, 0, 0, 0⟩).2.1.getD 0)) ∧
    (htu21_read_temperature_and_relative_humidity
        htu21_i2c_master_mode.htu21_i2c_no_hold defaultTimingState
        ⟨status_code.STATUS_OK, status_code.STATUS_OK, 0, 0, 0⟩
        ⟨status_code.STATUS_OK, status_code.STATUS_ERR_TIMEOUT, 0, 0, 0⟩).2.2.1
      = none ∧
    (htu21_read_temperature_and_relative_humidity
        htu21_i2c_master_mode.htu21_i2c_no_hold defaultTimingState
        ⟨status_code.STATUS_OK, status_code.STATUS_OK, 0, 0, 0⟩
        ⟨status_code.STATUS_OK, status_code.STATUS_ERR_TIMEOUT, 0, 0, 0⟩).1
      = (htu21_humidity_conversion_and_read_adc
          htu21_i2c_master_mode.htu21_i2c_no_hold
          defaultTimingState.htu21_humidity_conversion_time
          ⟨status_code.STATUS_OK, status_code.STATUS_ERR_TIMEOUT, 0, 0, 0⟩).1 ∧
    (htu21_read_temperature_and_relative_humidity
        htu21_i2c_master_mode.htu21_i2c_no_hold defaultTimingState
        ⟨status_code.STATUS_OK, status_code.STATUS_OK, 0, 0, 0⟩
        ⟨status_code.STATUS_OK, status_code.STATUS_ERR_TIMEOUT, 0, 0, 0⟩).1
      ≠ htu21_status.ok :=
  (claim_C9_outputs_not_atomic htu21_i2c_master_mode.htu21_i2c_no_hold
    defaultTimingState ⟨status_code.STATUS_OK, status_code.STATUS_OK, 0, 0, 0⟩
    ⟨status_code.STATUS_OK, status_code.STATUS_ERR_TIMEOUT, 0, 0, 0⟩).1
    (by decide) (by decide)

/-- Witness for C1: target byte 0xFF against current register byte 0xAA;
the merged byte sent is 0xEF, whose reserved bits equal those of 0xAA. -/
theorem claim_C1_witness :
    htu21_write_user_register 0xFF ⟨status_code.STATUS_OK, status_code.STATUS_OK, 0xAA⟩
        status_code.STATUS_OK
      = (map_i2c_status status_code.STATUS_OK,
         some (((0xAA % 256) &&& 0x38) ||| (0xFF &&& 0xC7)),
         [Ev.write [HTU21_READ_USER_REG_COMMAND], Ev.read 1,
          Ev.write [HTU21_WRITE_USER_REG_COMMAND,
            ((0xAA % 256) &&& 0x38) ||| (0xFF &&& 0xC7)]]) :=
  (claim_C1_write_user_register_merge 0xFF
    ⟨status_code.STATUS_OK, status_code.STATUS_OK, 0xAA⟩
    status_code.STATUS_OK rfl rfl).1

end Htu21
